import Mathlib

/-!
Shallow embedding of the core of the TickTui terminal task client, translated
from the Rust sources: the viewport-windowing / multi-select list engine
(`src/ui/multiselect`), the task-list bulk removal (`src/ui/tasklist.rs`),
the vim-style modal editing grammar (`src/editor/handlers.rs`), per-pane
action application (`src/editor/editor.rs`) and the composite pane
coordinator (`src/editor/composite.rs`), together with theorems settling the
specification claims.

The text-buffer primitive (a forked `tui_textarea::TextArea`) is not part of
the repository sources; the specification declares it an external
collaborator consumed through a fixed interface.  Where a claim's outcome
depends on that primitive's behaviour the corresponding Lean definitions are
modelled from the specification's description of the primitive interface and
are marked `Modelled from the spec:` in their doc comments.
-/

namespace TickTui

/-! ## Viewport windowing / multi-select list engine
(`src/ui/multiselect/state.rs`, `src/ui/multiselect/mod.rs`) -/

/-- Fixed height of one rendered list item (`ITEM_HEIGHT` in
`src/ui/multiselect/mod.rs`). -/
def ITEM_HEIGHT : Nat := 3

/-- Selection / scroll state of the multi-select list
(`MultiSelectListState` in `src/ui/multiselect/state.rs`). -/
structure MultiSelectListState where
  offset : Nat
  selected : Option Nat
  visual_start : Option Nat
deriving DecidableEq

/-- `MultiSelectListState::select`: sets `selected`, and resets `offset`
to 0 exactly when the new selection is `None`. -/
def MultiSelectListState.select (st : MultiSelectListState) (index : Option Nat) :
    MultiSelectListState :=
  { st with selected := index, offset := if index.isNone then 0 else st.offset }

/-- `MultiSelectListState::select_next` (`selected.map_or(0, saturating_add 1)`). -/
def MultiSelectListState.select_next (st : MultiSelectListState) : MultiSelectListState :=
  st.select (some (match st.selected with | some i => i + 1 | none => 0))

/-- `MultiSelectListState::start_visual_selection`. -/
def MultiSelectListState.start_visual_selection (st : MultiSelectListState) :
    MultiSelectListState :=
  if st.visual_start.isNone then
    match st.selected with
    | some idx => { st with visual_start := some idx }
    | none => st
  else st

/-- `MultiSelectListState::end_visual_selection`. -/
def MultiSelectListState.end_visual_selection (st : MultiSelectListState) :
    MultiSelectListState :=
  { st with visual_start := none }

/-- The multi-select list widget, reduced to the fields the windowing
algorithm reads: the number of items (each of fixed height `ITEM_HEIGHT`)
and the configured scroll padding.  The program never sets a padding
(`MultiSelectList` has no scroll-padding builder and `Default` yields 0). -/
structure MultiSelectList where
  len : Nat
  scroll_padding : Nat

/-- First loop of `get_items_bounds`: starting from the clamped offset,
accumulate fixed item heights until one more would exceed `max_height`.
`fuel` is the number of items from the offset on (`items.iter().skip(offset)`
iterates at most that often, so the fuel is exact).  Returns
`(height_from_offset, last_visible_index)`. -/
def accum_loop (maxHeight : Nat) : Nat → Nat → Nat → Nat × Nat
  | 0, h, last => (h, last)
  | fuel + 1, h, last =>
    if maxHeight < h + ITEM_HEIGHT then (h, last)
    else accum_loop maxHeight fuel (h + ITEM_HEIGHT) (last + 1)

/-- Height summed by one iteration of the padding-reduction loop of
`apply_scroll_padding_to_selected_index`: `ITEM_HEIGHT` for every index in
the inclusive range `[selected - pad, min (selected + pad) last_valid]`
(saturating subtraction; the lower bound never exceeds the upper one since
`selected ≤ last_valid`). -/
def pad_window_height (selected pad last_valid : Nat) : Nat :=
  (min (selected + pad) last_valid + 1 - (selected - pad)) * ITEM_HEIGHT

/-- Padding-reduction loop of `apply_scroll_padding_to_selected_index`:
shrink the padding until the padded window fits in `max_height`. -/
def pad_loop (selected last_valid maxHeight : Nat) : Nat → Nat
  | 0 => 0
  | pad + 1 =>
    if pad_window_height selected (pad + 1) last_valid ≤ maxHeight then pad + 1
    else pad_loop selected last_valid maxHeight pad

/-- `MultiSelectList::apply_scroll_padding_to_selected_index`. -/
def apply_scroll_padding_to_selected_index (L : MultiSelectList) (selected : Option Nat)
    (maxHeight first_visible_index last_visible_index : Nat) : Option Nat :=
  match selected with
  | none => none
  | some s0 =>
    let last_valid := L.len - 1
    let s := min s0 last_valid
    let pad := pad_loop s last_valid maxHeight L.scroll_padding
    some (min
      (if last_visible_index ≤ min (s + pad) last_valid then s + pad
       else if s - pad < first_visible_index then s - pad
       else s)
      last_valid)

/-- Inner loop of the forward-growing phase of `get_items_bounds`:
`while height_from_offset > ITEM_HEIGHT { height -= ITEM_HEIGHT; first += 1 }`.
The fuel is the current height, which bounds the iteration count. -/
def hide_front_loop : Nat → Nat → Nat → Nat × Nat
  | 0, h, first => (h, first)
  | fuel + 1, h, first =>
    if ITEM_HEIGHT < h then hide_front_loop fuel (h - ITEM_HEIGHT) (first + 1)
    else (h, first)

/-- Forward-growing phase of `get_items_bounds`:
`while index_to_display >= last { h += ITEM_HEIGHT; last += 1; hide front }`.
`last` strictly increases each iteration, so `index_to_display + 1` bounds
the iteration count and is used as fuel. -/
def grow_loop (index_to_display : Nat) : Nat → Nat → Nat → Nat → Nat × Nat × Nat
  | 0, first, last, h => (first, last, h)
  | fuel + 1, first, last, h =>
    if last ≤ index_to_display then
      let h := h + ITEM_HEIGHT
      let last := last + 1
      let p := hide_front_loop h h first
      grow_loop index_to_display fuel p.2 last p.1
    else (first, last, h)

/-- Inner loop of the backward phase of `get_items_bounds`:
`while height_from_offset > max_height { last -= 1; height -= ITEM_HEIGHT }`.
The fuel is the current height, which bounds the iteration count. -/
def hide_back_loop (maxHeight : Nat) : Nat → Nat → Nat → Nat × Nat
  | 0, h, last => (h, last)
  | fuel + 1, h, last =>
    if maxHeight < h then hide_back_loop maxHeight fuel (h - ITEM_HEIGHT) (last - 1)
    else (h, last)

/-- Backward phase of `get_items_bounds`:
`while index_to_display < first { first -= 1; h += ITEM_HEIGHT; hide back }`.
`first` strictly decreases each iteration, so its entry value bounds the
iteration count and is used as fuel. -/
def shrink_loop (index_to_display maxHeight : Nat) : Nat → Nat → Nat → Nat → Nat × Nat × Nat
  | 0, first, last, h => (first, last, h)
  | fuel + 1, first, last, h =>
    if index_to_display < first then
      let first := first - 1
      let h := h + ITEM_HEIGHT
      let p := hide_back_loop maxHeight h h last
      shrink_loop index_to_display maxHeight fuel first p.2 p.1
    else (first, last, h)

/-- `MultiSelectList::get_items_bounds`: given a selection, a persisted
offset and the available height, compute the `(first_visible_index,
last_visible_index)` window. -/
def get_items_bounds (L : MultiSelectList) (selected : Option Nat)
    (offset maxHeight : Nat) : Nat × Nat :=
  let off := min offset (L.len - 1)
  let p := accum_loop maxHeight (L.len - off) 0 off
  let idx := (apply_scroll_padding_to_selected_index L selected maxHeight off p.2).getD off
  let q := grow_loop idx (idx + 1) off p.2 p.1
  let r := shrink_loop idx maxHeight q.1 q.1 q.2.1 q.2.2
  (r.1, r.2.1)

/-- The stateful render pass of `&MultiSelectList`
(`StatefulWidget::render` in `src/ui/multiselect/mod.rs`), reduced to its
effect on the list state and the visible window: early return on an empty
render area; `select(None)` on an empty item list; clamp an out-of-bounds
selection to the last item; compute the window and persist its start as the
new offset.  Returns the updated state together with `(first_visible_index,
last_visible_index)`; the items actually rendered are those with indices in
`[first, last)`.  Drawing itself (styles, highlight symbols) is out of
scope. -/
def render_multiselect (L : MultiSelectList) (width height : Nat)
    (st : MultiSelectListState) : MultiSelectListState × Nat × Nat :=
  if width = 0 ∨ height = 0 then (st, st.offset, st.offset)
  else if L.len = 0 then (st.select none, 0, 0)
  else
    let st :=
      match st.selected with
      | some s => if L.len ≤ s then st.select (some (L.len - 1)) else st
      | none => st
    let b := get_items_bounds L st.selected st.offset height
    ({ st with offset := b.1 }, b.1, b.2)

/-! ## Task list (`src/ui/tasklist.rs`) -/

/-- The task list: the items (abstract, only their identity matters to the
claims) together with the multi-select list state. -/
structure TaskList (α : Type) where
  tasks : List α
  list_state : MultiSelectListState

/-- `TaskList::remove_task`: remove the item at `index` when in bounds. -/
def TaskList.remove_task {α : Type} (tl : TaskList α) (index : Nat) : TaskList α :=
  if index < tl.tasks.length then { tl with tasks := tl.tasks.eraseIdx index } else tl

/-- `TaskList::remove_range_inclusive`: drain the inclusive range
`[start, end]` when both bounds are valid and ordered. -/
def TaskList.remove_range_inclusive {α : Type} (tl : TaskList α) (range : Nat × Nat) :
    TaskList α :=
  if range.1 < tl.tasks.length ∧ range.2 < tl.tasks.length ∧ range.1 ≤ range.2 then
    { tl with tasks := tl.tasks.take range.1 ++ tl.tasks.drop (range.2 + 1) }
  else tl

/-- `TaskList::remove_selected_tasks`: with an active visual range, remove
the whole inclusive range between `visual_start` and `selected` (in either
order), select its lower end and end the visual selection; otherwise remove
the single selected item and re-select the same index. -/
def TaskList.remove_selected_tasks {α : Type} (tl : TaskList α) : TaskList α :=
  match tl.list_state.selected with
  | none => tl
  | some curr =>
    match tl.list_state.visual_start with
    | some start =>
      let se := if start ≤ curr then (start, curr) else (curr, start)
      let tl := tl.remove_range_inclusive se
      let tl := { tl with list_state := tl.list_state.select (some se.1) }
      { tl with list_state := tl.list_state.end_visual_selection }
    | none =>
      let tl := tl.remove_task curr
      { tl with list_state := tl.list_state.select (some curr) }

/-! ## Modal editing grammar: data model (`src/editor/mod.rs`,
`src/editor/actions.rs`, `tui_textarea` input/cursor types) -/

/-- Key of an input event (`tui_textarea::Key`, restricted to the variants
the handlers in this repository distinguish; every other variant falls into
the handlers' catch-all arms exactly as `Null` does). -/
inductive Key where
  | Char (c : Char)
  | Esc
  | Enter
  | Backspace
  | Tab
  | Up
  | Down
  | Left
  | Right
  | Null
deriving DecidableEq

/-- An input event (`tui_textarea::Input`): a key plus modifier flags. -/
structure Input where
  key : Key
  ctrl : Bool
  alt : Bool
  shift : Bool
deriving DecidableEq

/-- Cursor motions (`tui_textarea::CursorMove`, including the fork's
`Left`/`Right` variants used by this repository). -/
inductive CursorMove where
  | Forward
  | Back
  | Left
  | Right
  | Up
  | Down
  | Head
  | End
  | Top
  | Bottom
  | WordForward
  | WordBack
  | WordEnd
  | ParagraphForward
  | ParagraphBack
  | Jump (row col : Nat)
deriving DecidableEq

/-- `VisualMode` in `src/editor/mod.rs`. -/
inductive VisualMode where
  | Char
  | Line
deriving DecidableEq

/-- `EditorMode` in `src/editor/mod.rs`. -/
inductive EditorMode where
  | Normal
  | Insert
  | Replace
  | Visual (vmode : VisualMode)
deriving DecidableEq

/-- `TextObject` in `src/editor/mod.rs`. -/
inductive TextObject where
  | Char
  | WordInner
  | WordAround
  | Line
  | ParagraphInner
  | ParagraphAround
  | Selection
  | To (mvmt : CursorMove)
deriving DecidableEq

/-- `TextObjectModifier` in `src/editor/mod.rs`. -/
inductive TextObjectModifier where
  | Inner
  | Around
deriving DecidableEq

/-- `EditorPendingAction` in `src/editor/actions.rs`. -/
inductive EditorPendingAction where
  | Delete (m : Option TextObjectModifier)
  | Change (m : Option TextObjectModifier)
  | Select (m : Option TextObjectModifier)
  | Yank (m : Option TextObjectModifier)
  | ReplaceChar
deriving DecidableEq

/-- `EditorAction` in `src/editor/actions.rs` (`MultiAction` is the spec's
`Batch`). -/
inductive EditorAction where
  | SetMode (mode : EditorMode)
  | MoveCursor (mvmt : CursorMove)
  | Insert (obj : TextObject)
  | ApplyInput (input : Input)
  | Delete (obj : TextObject)
  | Select (obj : TextObject)
  | Yank (obj : TextObject)
  | ReplaceChar (c : Char)
  | Paste
  | Undo
  | Redo
  | Pending (p : EditorPendingAction)
  | MultiAction (actions : List EditorAction)

/-! ## Text-buffer primitive

Modelled from the spec: the buffer primitive (the forked
`tui_textarea::TextArea`) is an external collaborator whose sources are not
part of this repository.  Its state and operations below follow §6 of the
specification (lines, single cursor, single selection anchor, single yank
register, desired column) and the behaviour §3/§4/§8 ascribe to it:
vertical motions land at `min (desired column) (line length - 1)` while
horizontal motions reset the desired column; `End` moves past the last
character so that a selection started there excludes the line's text;
`cut`/`copy` act on the span between the anchor and the cursor (cursor end
exclusive, as `Delete(Char)` = select + one `Forward` + cut shows);
`paste` inserts the register at the cursor.  Word and paragraph motions,
raw-input handling and undo/redo history are buffer internals no claim
depends on; they are modelled as identities. -/

/-- A buffer line, as a list of characters. -/
abbrev Line := List Char

/-- Insert `a` at position `n` of a list. -/
def insertAt {α : Type} (n : Nat) (a : α) (l : List α) : List α :=
  l.take n ++ a :: l.drop n

/-- Modelled from the spec: the text-buffer primitive's state. -/
structure TextArea where
  lines : List Line
  row : Nat
  col : Nat
  sel_start : Option (Nat × Nat)
  yank : Line
  desired_col : Nat
deriving DecidableEq

/-- The line the cursor is on (empty when out of range). -/
def TextArea.currentLine (ta : TextArea) : Line :=
  ta.lines.getD ta.row []

/-- Length of line `r`. -/
def TextArea.lineLen (ta : TextArea) (r : Nat) : Nat :=
  (ta.lines.getD r []).length

/-- Modelled from the spec: vertical motions land at
`min (desired column) (line length - 1)`. -/
def TextArea.fitVertical (ta : TextArea) (r : Nat) : Nat :=
  min ta.desired_col (ta.lineLen r - 1)

/-- Modelled from the spec: `move_cursor`.  Horizontal motions reset the
desired column to the new column; vertical motions preserve it.  `Forward`
and `Back` wrap across line boundaries, `Left` and `Right` do not.  `Jump`
clamps to the nearest valid position.  Word and paragraph motions are
buffer internals no claim depends on and are modelled as identities. -/
def TextArea.move_cursor (ta : TextArea) : CursorMove → TextArea
  | .Forward =>
    if ta.col < ta.lineLen ta.row then
      { ta with col := ta.col + 1, desired_col := ta.col + 1 }
    else if ta.row + 1 < ta.lines.length then
      { ta with row := ta.row + 1, col := 0, desired_col := 0 }
    else ta
  | .Back =>
    if 0 < ta.col then
      { ta with col := ta.col - 1, desired_col := ta.col - 1 }
    else if 0 < ta.row then
      { ta with row := ta.row - 1, col := ta.lineLen (ta.row - 1),
                desired_col := ta.lineLen (ta.row - 1) }
    else ta
  | .Left => { ta with col := ta.col - 1, desired_col := ta.col - 1 }
  | .Right =>
    let c := min (ta.col + 1) (ta.lineLen ta.row)
    { ta with col := c, desired_col := c }
  | .Up =>
    if ta.row = 0 then ta
    else { ta with row := ta.row - 1, col := ta.fitVertical (ta.row - 1) }
  | .Down =>
    if ta.row + 1 < ta.lines.length then
      { ta with row := ta.row + 1, col := ta.fitVertical (ta.row + 1) }
    else ta
  | .Head => { ta with col := 0, desired_col := 0 }
  | .End =>
    { ta with col := ta.lineLen ta.row, desired_col := ta.lineLen ta.row }
  | .Top => { ta with row := 0, col := ta.fitVertical 0 }
  | .Bottom =>
    { ta with row := ta.lines.length - 1, col := ta.fitVertical (ta.lines.length - 1) }
  | .Jump r c =>
    let r := min r (ta.lines.length - 1)
    let c := min c (ta.lineLen r)
    { ta with row := r, col := c, desired_col := c }
  | .WordForward => ta
  | .WordBack => ta
  | .WordEnd => ta
  | .ParagraphForward => ta
  | .ParagraphBack => ta

/-- `start_selection`: anchor the selection at the cursor. -/
def TextArea.start_selection (ta : TextArea) : TextArea :=
  { ta with sel_start := some (ta.row, ta.col) }

/-- Modelled from the spec: `start_line_selection` (fork-only) anchors a
line-anchored selection at the head of the cursor's line. -/
def TextArea.start_line_selection (ta : TextArea) : TextArea :=
  { ta with sel_start := some (ta.row, 0) }

/-- `cancel_selection`. -/
def TextArea.cancel_selection (ta : TextArea) : TextArea :=
  { ta with sel_start := none }

/-- `set_yank_text`. -/
def TextArea.set_yank_text (ta : TextArea) (t : Line) : TextArea :=
  { ta with yank := t }

/-- Join lines with newline characters. -/
def joinLines : List Line → Line
  | [] => []
  | [l] => l
  | l :: ls => l ++ '\n' :: joinLines ls

/-- Text of the span between positions `(r1, c1) ≤ (r2, c2)` (end
exclusive). -/
def extractRange (lines : List Line) (r1 c1 r2 c2 : Nat) : Line :=
  if r1 = r2 then ((lines.getD r1 []).take c2).drop c1
  else
    joinLines (((lines.getD r1 []).drop c1) ::
      ((lines.drop (r1 + 1)).take (r2 - r1 - 1) ++ [(lines.getD r2 []).take c2]))

/-- The lines after deleting the span between `(r1, c1) ≤ (r2, c2)` (end
exclusive). -/
def deleteRange (lines : List Line) (r1 c1 r2 c2 : Nat) : List Line :=
  if r1 = r2 then
    lines.set r1 ((lines.getD r1 []).take c1 ++ (lines.getD r1 []).drop c2)
  else
    lines.take r1 ++
      ((lines.getD r1 []).take c1 ++ (lines.getD r2 []).drop c2) :: lines.drop (r2 + 1)

/-- Order the selection anchor and the cursor. -/
def TextArea.orderedSelection (ta : TextArea) (anchor : Nat × Nat) :
    (Nat × Nat) × (Nat × Nat) :=
  if anchor.1 < ta.row ∨ (anchor.1 = ta.row ∧ anchor.2 ≤ ta.col) then
    (anchor, (ta.row, ta.col))
  else ((ta.row, ta.col), anchor)

/-- Modelled from the spec: `cut` removes the selected span, places the
cursor at its start and moves the text to the yank register. -/
def TextArea.cut (ta : TextArea) : TextArea :=
  match ta.sel_start with
  | none => ta
  | some anchor =>
    let p := ta.orderedSelection anchor
    { ta with
      lines := deleteRange ta.lines p.1.1 p.1.2 p.2.1 p.2.2,
      row := p.1.1, col := p.1.2, desired_col := p.1.2,
      sel_start := none,
      yank := extractRange ta.lines p.1.1 p.1.2 p.2.1 p.2.2 }

/-- Modelled from the spec: `copy` moves the selected span's text to the
yank register and clears the selection, leaving the buffer and cursor
untouched. -/
def TextArea.copy (ta : TextArea) : TextArea :=
  match ta.sel_start with
  | none => ta
  | some anchor =>
    let p := ta.orderedSelection anchor
    { ta with
      sel_start := none,
      yank := extractRange ta.lines p.1.1 p.1.2 p.2.1 p.2.2 }

/-- Modelled from the spec: delete the selected span without touching the
yank register (used when typing over a selection). -/
def TextArea.deleteSelection (ta : TextArea) : TextArea :=
  match ta.sel_start with
  | none => ta
  | some anchor =>
    let p := ta.orderedSelection anchor
    { ta with
      lines := deleteRange ta.lines p.1.1 p.1.2 p.2.1 p.2.2,
      row := p.1.1, col := p.1.2, desired_col := p.1.2,
      sel_start := none }

/-- `insert_newline`: split the current line at the cursor. -/
def TextArea.insert_newline (ta : TextArea) : TextArea :=
  let l := ta.currentLine
  { ta with
    lines := insertAt (ta.row + 1) (l.drop ta.col) (ta.lines.set ta.row (l.take ta.col)),
    row := ta.row + 1, col := 0, desired_col := 0 }

/-- Split a line at its newline characters (`contents.split('\n')`
semantics: always at least one segment). -/
def splitNewlines : Line → List Line
  | [] => [[]]
  | c :: rest =>
    match splitNewlines rest with
    | s :: ss => if c = '\n' then [] :: s :: ss else (c :: s) :: ss
    | [] => [[]]

/-- Modelled from the spec: `paste` inserts the yank register's text at the
cursor, leaving the cursor at the end of the inserted text. -/
def TextArea.paste (ta : TextArea) : TextArea :=
  match splitNewlines ta.yank with
  | [] => ta
  | [s] =>
    let l := ta.currentLine
    { ta with
      lines := ta.lines.set ta.row (l.take ta.col ++ s ++ l.drop ta.col),
      col := ta.col + s.length, desired_col := ta.col + s.length }
  | s :: rest =>
    let l := ta.currentLine
    let lastSeg := rest.getLastD []
    { ta with
      lines := ta.lines.take ta.row ++
        ((l.take ta.col ++ s) :: (rest.dropLast ++ [lastSeg ++ l.drop ta.col])) ++
        ta.lines.drop (ta.row + 1),
      row := ta.row + rest.length, col := lastSeg.length,
      desired_col := lastSeg.length }

/-- Modelled from the spec: `insert_char` replaces an active selection and
inserts one character at the cursor, advancing past it. -/
def TextArea.insert_char (ta : TextArea) (c : Char) : TextArea :=
  let ta := ta.deleteSelection
  let l := ta.currentLine
  { ta with
    lines := ta.lines.set ta.row (l.take ta.col ++ c :: l.drop ta.col),
    col := ta.col + 1, desired_col := ta.col + 1 }

/-- Modelled from the spec: raw-input forwarding (`TextArea::input`) and the
undo/redo history are buffer internals no claim depends on; modelled as the
identity. -/
def TextArea.applyRaw (ta : TextArea) (_input : Input) : TextArea := ta

/-- `set_desired_column` (fork-only accessor used by the composite
coordinator). -/
def TextArea.set_desired_column (ta : TextArea) (c : Nat) : TextArea :=
  { ta with desired_col := c }

/-- Remove trailing whitespace (`str::trim_end`). -/
def trimEnd (l : Line) : Line :=
  (l.reverse.dropWhile (fun c => c.isWhitespace)).reverse

/-! ## Editor pane (`src/editor/editor.rs`) -/

/-- One editor pane: the buffer, the mode, the pending command, the
yank-type tag and the single-line flag (`Editor` + `EditorState` in
`src/editor/editor.rs`; title, validator and styling fields are
render-only and omitted). -/
structure Editor where
  ta : TextArea
  mode : EditorMode
  pending_action : Option EditorPendingAction
  yank_type : Option TextObject
  single_line : Bool
deriving DecidableEq

/-- `select_current_word` in `src/editor/editor.rs` (its cursor motions are
the out-of-scope word primitives).  Returns the buffer with the selection
made plus the remembered pre-operation cursor. -/
def select_current_word (ta : TextArea) (modifier : TextObjectModifier) :
    TextArea × Nat × Nat :=
  let r := ta.row
  let c := ta.col
  let ta := ta.move_cursor .WordBack
  let ta := ta.start_selection
  let ta :=
    match modifier with
    | .Inner => (ta.move_cursor .WordEnd).move_cursor .Right
    | .Around => ta.move_cursor .WordForward
  (ta, r, c)

/-- `select_current_line` in `src/editor/editor.rs`: select the whole
current line including its newline; on the last line of a multi-line buffer
select instead from the end of the previous line to the end of the current
one.  Returns the buffer with the selection made plus the remembered
pre-operation cursor. -/
def select_current_line (ta : TextArea) : TextArea × Nat × Nat :=
  let r := ta.row
  let c := ta.col
  let total := ta.lines.length
  if r + 1 = total ∧ 1 < total then
    let ta := ta.move_cursor .Up
    let ta := ta.move_cursor .End
    let ta := ta.start_selection
    let ta := ta.move_cursor .Down
    let ta := ta.move_cursor .End
    (ta, r, c)
  else
    let ta := ta.move_cursor .Head
    let ta := ta.start_selection
    let cur := (ta.row, ta.col)
    let ta := ta.move_cursor .Down
    let ta := if cur = (ta.row, ta.col) then ta.move_cursor .End else ta
    (ta, r, c)

/-- `select_current_paragraph` in `src/editor/editor.rs`: the documented
no-op stub. -/
def select_current_paragraph (ta : TextArea) (_modifier : TextObjectModifier) :
    TextArea × Nat × Nat :=
  (ta, ta.row, ta.col)

/-- The two-arm test of the `Paste` arm's `match self.state.yank_type`
(`Some(TextObject::Line)` against everything else). -/
def isLineYank : Option TextObject → Bool
  | some .Line => true
  | _ => false

/-- One (non-`MultiAction`) arm of `Editor::execute_action`.  Returns the
updated pane together with a flag telling whether the trailing
pending-command clear is skipped: it is skipped by the `Pending` arm (which
re-arms the pending command) and by the three early `return`s guarding
single-line panes (`Insert(Line)`, an `Enter` key in `ApplyInput`, and a
`Line`-typed `Paste`). -/
def Editor.execute_step (ed : Editor) : EditorAction → Editor × Bool
  | .SetMode mode =>
    let ta :=
      match mode with
      | .Normal => ed.ta.cancel_selection
      | .Visual .Char => ed.ta.start_selection
      | .Visual .Line => ed.ta.start_line_selection
      | .Insert => ed.ta
      | .Replace => ed.ta
    ({ ed with ta := ta, mode := mode }, false)
  | .MoveCursor mvmt => ({ ed with ta := ed.ta.move_cursor mvmt }, false)
  | .Insert obj =>
    match obj with
    | .Line =>
      if ed.single_line then (ed, true)
      else ({ ed with ta := ed.ta.insert_newline }, false)
    | _ => (ed, false)
  | .ApplyInput input =>
    if ed.single_line ∧ input.key = .Enter then (ed, true)
    else ({ ed with ta := ed.ta.applyRaw input }, false)
  | .Delete obj =>
    let ed := { ed with yank_type := some obj }
    match obj with
    | .Char =>
      (({ ed with ta := ((ed.ta.start_selection.move_cursor .Forward)).cut }), false)
    | .WordInner =>
      ({ ed with ta := (select_current_word ed.ta .Inner).1.cut }, false)
    | .WordAround =>
      ({ ed with ta := (select_current_word ed.ta .Around).1.cut }, false)
    | .Line =>
      let p := select_current_line ed.ta
      ({ ed with ta := (p.1.cut).move_cursor (.Jump p.2.1 p.2.2) }, false)
    | .Selection => ({ ed with ta := ed.ta.cut }, false)
    | .To mvmt =>
      ({ ed with ta := ((ed.ta.start_selection.move_cursor mvmt)).cut }, false)
    | _ => (ed, false)
  | .Select obj =>
    let ta :=
      match obj with
      | .WordInner => (select_current_word ed.ta .Inner).1
      | .WordAround => (select_current_word ed.ta .Around).1
      | .ParagraphInner => (select_current_paragraph ed.ta .Inner).1
      | .ParagraphAround => (select_current_paragraph ed.ta .Inner).1
      | _ => ed.ta
    ({ ed with ta := ta, mode := .Visual .Char }, false)
  | .Yank obj =>
    let ed := { ed with yank_type := some obj }
    match obj with
    | .Line =>
      let p := select_current_line ed.ta
      ({ ed with ta := (p.1.copy).move_cursor (.Jump p.2.1 p.2.2) }, false)
    | .Selection =>
      let ed :=
        if ed.mode = EditorMode.Visual .Line then { ed with yank_type := some .Line }
        else ed
      ({ ed with ta := ed.ta.copy }, false)
    | _ => (ed, false)
  | .ReplaceChar c =>
    let ta := (ed.ta.start_selection.move_cursor .Forward).set_yank_text [c]
    ({ ed with ta := ((ta.insert_char c)).move_cursor .Back }, false)
  | .Paste =>
    if isLineYank ed.yank_type then
      if ed.single_line then (ed, true)
      else
        let ta := ed.ta.set_yank_text (trimEnd ed.ta.yank)
        let ta := ta.move_cursor .End
        let ta := ta.insert_newline
        let ta := ta.paste
        ({ ed with ta := ta.move_cursor .Head }, false)
    else
      ({ ed with ta := (ed.ta.move_cursor .Forward).paste }, false)
  | .Undo => (ed, false)
  | .Redo => (ed, false)
  | .Pending p => ({ ed with pending_action := some p }, true)
  | .MultiAction _ => (ed, false)

mutual

/-- `Editor::execute_action`: apply one action to the pane; every arm but
`Pending` (and the single-line early returns, see `Editor.execute_step`)
clears the pending command afterwards.  A `MultiAction` applies its members
in order (each as a full `execute_action` call) and then clears the pending
command. -/
def Editor.execute_action (ed : Editor) : EditorAction → Editor
  | .MultiAction actions =>
    { Editor.execute_list ed actions with pending_action := none }
  | a =>
    let p := ed.execute_step a
    if p.2 then p.1 else { p.1 with pending_action := none }

/-- The `for act in actions` loop of the `MultiAction` arm. -/
def Editor.execute_list (ed : Editor) : List EditorAction → Editor
  | [] => ed
  | a :: rest => Editor.execute_list (ed.execute_action a) rest

end

/-- `Editor::set_pending_action`. -/
def Editor.set_pending_action (ed : Editor) (p : Option EditorPendingAction) : Editor :=
  { ed with pending_action := p }

/-! ## Key handlers (`src/editor/handlers.rs`, `src/ui/editor/helpers.rs`) -/

/-- `is_movement_key` in `src/ui/editor/helpers.rs`.  The first source
pattern lists the unshifted movement characters with all modifier flags
false; `G` additionally matches with shift set; the arrow keys match with
any flags. -/
def is_movement_key (input : Input) : Bool :=
  match input with
  | ⟨.Char c, false, false, false⟩ =>
    c = 'h' ∨ c = 'j' ∨ c = 'k' ∨ c = 'l' ∨ c = 'w' ∨ c = 'b' ∨ c = 'e' ∨
      c = '0' ∨ c = '$' ∨ c = 'g' ∨ c = '{' ∨ c = '}' ∨ c = 'G'
  | ⟨.Char 'G', false, false, true⟩ => true
  | ⟨.Up, _, _, _⟩ => true
  | ⟨.Down, _, _, _⟩ => true
  | ⟨.Left, _, _, _⟩ => true
  | ⟨.Right, _, _, _⟩ => true
  | _ => false

/-- `match_movement_key` in `src/ui/editor/helpers.rs`.  Note the asymmetry
of the source: `h` maps to `CursorMove::Left` but the left arrow to
`CursorMove::Back`, `l` to `Right` but the right arrow to `Forward`; the
arrow arms here require all flags false. -/
def match_movement_key (input : Input) : Option CursorMove :=
  match input with
  | ⟨.Char 'h', false, false, false⟩ => some .Left
  | ⟨.Left, false, false, false⟩ => some .Back
  | ⟨.Char 'j', false, false, false⟩ => some .Down
  | ⟨.Down, false, false, false⟩ => some .Down
  | ⟨.Char 'k', false, false, false⟩ => some .Up
  | ⟨.Up, false, false, false⟩ => some .Up
  | ⟨.Char 'l', false, false, false⟩ => some .Right
  | ⟨.Right, false, false, false⟩ => some .Forward
  | ⟨.Char 'w', false, false, false⟩ => some .WordForward
  | ⟨.Char 'b', false, false, false⟩ => some .WordBack
  | ⟨.Char 'e', false, false, false⟩ => some .WordEnd
  | ⟨.Char '0', false, false, false⟩ => some .Head
  | ⟨.Char '$', false, false, _⟩ => some .End
  | ⟨.Char 'g', false, false, false⟩ => some .Top
  | ⟨.Char 'G', false, false, _⟩ => some .Bottom
  | ⟨.Char '{', false, false, _⟩ => some .ParagraphBack
  | ⟨.Char '}', false, false, _⟩ => some .ParagraphForward
  | _ => none

/-- `handle_normal_mode_input` in `src/editor/handlers.rs`: the Normal-mode
key → action table. -/
def handle_normal_mode_input (input : Input) : Option EditorAction :=
  match input with
  | ⟨.Char 'i', false, false, false⟩ => some (.SetMode .Insert)
  | ⟨.Char 'I', false, false, _⟩ =>
    some (.MultiAction [.MoveCursor .Head, .SetMode .Insert])
  | ⟨.Char 'a', false, false, false⟩ =>
    some (.MultiAction [.MoveCursor .Right, .SetMode .Insert])
  | ⟨.Char 'A', false, false, _⟩ =>
    some (.MultiAction [.MoveCursor .End, .SetMode .Insert])
  | ⟨.Char 'o', false, false, false⟩ =>
    some (.MultiAction [.MoveCursor .End, .Insert .Line, .SetMode .Insert])
  | ⟨.Char 'O', false, false, _⟩ =>
    some (.MultiAction
      [.MoveCursor .Up, .MoveCursor .End, .Insert .Line, .SetMode .Insert])
  | ⟨.Char 'x', false, false, false⟩ => some (.Delete .Char)
  | ⟨.Char 'd', false, false, false⟩ => some (.Pending (.Delete none))
  | ⟨.Char 'c', false, false, false⟩ => some (.Pending (.Change none))
  | ⟨.Char 'y', false, false, false⟩ => some (.Pending (.Yank none))
  | ⟨.Char 'p', false, false, false⟩ => some .Paste
  | ⟨.Char 'u', false, false, false⟩ => some .Undo
  | ⟨.Char 'r', false, false, false⟩ => some (.Pending .ReplaceChar)
  | ⟨.Char 'R', false, false, _⟩ => some (.SetMode .Replace)
  | ⟨.Char 'r', true, false, false⟩ => some .Redo
  | ⟨.Char 's', false, false, false⟩ => some (.Pending (.Select none))
  | ⟨.Char 'v', false, false, false⟩ => some (.Pending (.Select none))
  | ⟨.Char 'V', false, false, _⟩ => some (.SetMode (.Visual .Line))
  | _ =>
    if is_movement_key input then (match_movement_key input).map (.MoveCursor ·)
    else none

/-- `handle_pending_action_input` in `src/editor/handlers.rs`: second-stage
resolution of a pending operator or replace-char command. -/
def handle_pending_action_input (input : Input) (pending : EditorPendingAction) :
    Option EditorAction :=
  match pending with
  | .Delete none =>
    match input with
    | ⟨.Char 'i', false, false, false⟩ => some (.Pending (.Delete (some .Inner)))
    | ⟨.Char 'a', false, false, false⟩ => some (.Pending (.Delete (some .Around)))
    | ⟨.Char 'd', false, false, false⟩ => some (.Delete .Line)
    | _ =>
      if is_movement_key input then
        (match_movement_key input).map (fun mvmt => .Delete (.To mvmt))
      else none
  | .Delete (some modifier) =>
    match input with
    | ⟨.Char 'w', false, false, false⟩ =>
      match modifier with
      | .Inner => some (.Delete .WordInner)
      | .Around => some (.Delete .WordAround)
    | ⟨.Char 'p', false, false, false⟩ =>
      match modifier with
      | .Inner => some (.Delete .ParagraphInner)
      | .Around => some (.Delete .ParagraphAround)
    | _ => none
  | .Select none =>
    match input with
    | ⟨.Char 'i', false, false, false⟩ => some (.Pending (.Select (some .Inner)))
    | ⟨.Char 'a', false, false, false⟩ => some (.Pending (.Select (some .Around)))
    | _ =>
      if is_movement_key input then
        (match_movement_key input).map (fun mvmt =>
          match mvmt with
          | .Back => .MultiAction [.MoveCursor .Right,
              .SetMode (.Visual .Char), .MoveCursor .Left, .MoveCursor mvmt]
          | .Left => .MultiAction [.MoveCursor .Right,
              .SetMode (.Visual .Char), .MoveCursor .Left, .MoveCursor mvmt]
          | _ => .MultiAction [.SetMode (.Visual .Char), .MoveCursor mvmt])
      else none
  | .Select (some modifier) =>
    match input with
    | ⟨.Char 'w', false, false, false⟩ =>
      match modifier with
      | .Inner => some (.Select .WordInner)
      | .Around => some (.Select .WordAround)
    | ⟨.Char 'p', false, false, false⟩ =>
      match modifier with
      | .Inner => some (.Select .ParagraphInner)
      | .Around => some (.Select .ParagraphAround)
    | _ => none
  | .Yank none =>
    match input with
    | ⟨.Char 'i', false, false, false⟩ => some (.Pending (.Yank (some .Inner)))
    | ⟨.Char 'a', false, false, false⟩ => some (.Pending (.Yank (some .Around)))
    | ⟨.Char 'y', false, false, false⟩ => some (.Yank .Line)
    | _ =>
      if is_movement_key input then
        (match_movement_key input).map (fun mvmt => .Yank (.To mvmt))
      else none
  | .Yank (some modifier) =>
    match input with
    | ⟨.Char 'w', false, false, false⟩ =>
      match modifier with
      | .Inner => some (.Yank .WordInner)
      | .Around => some (.Yank .WordAround)
    | ⟨.Char 'p', false, false, false⟩ =>
      match modifier with
      | .Inner => some (.Yank .ParagraphInner)
      | .Around => some (.Yank .ParagraphAround)
    | _ => none
  | .Change none =>
    match input with
    | ⟨.Char 'i', false, false, false⟩ => some (.Pending (.Change (some .Inner)))
    | ⟨.Char 'a', false, false, false⟩ => some (.Pending (.Change (some .Around)))
    | ⟨.Char 'c', false, false, false⟩ =>
      some (.MultiAction [.Delete .Line, .SetMode .Insert])
    | _ =>
      if is_movement_key input then
        (match_movement_key input).map (fun mvmt =>
          .MultiAction [.Delete (.To mvmt), .SetMode .Insert])
      else none
  | .Change (some modifier) =>
    match input with
    | ⟨.Char 'w', false, false, false⟩ =>
      match modifier with
      | .Inner => some (.MultiAction [.Delete .WordInner, .SetMode .Insert])
      | .Around => some (.MultiAction [.Delete .WordAround, .SetMode .Insert])
    | ⟨.Char 'p', false, false, false⟩ =>
      match modifier with
      | .Inner => some (.MultiAction [.Delete .ParagraphInner, .SetMode .Insert])
      | .Around => some (.MultiAction [.Delete .ParagraphAround, .SetMode .Insert])
    | _ => none
  | .ReplaceChar =>
    match input with
    | ⟨.Char c, false, false, false⟩ => some (.ReplaceChar c)
    | _ => none

/-- `handle_insert_mode_input` in `src/editor/handlers.rs`. -/
def handle_insert_mode_input (input : Input) : Option EditorAction :=
  match input with
  | ⟨.Esc, _, _, _⟩ =>
    some (.MultiAction [.MoveCursor .Left, .SetMode .Normal])
  | ⟨.Char 'c', true, _, _⟩ =>
    some (.MultiAction [.MoveCursor .Left, .SetMode .Normal])
  | i => some (.ApplyInput i)

/-- `handle_visual_mode_input` in `src/editor/handlers.rs` (the `Char` and
`Line` tables are identical in the source). -/
def handle_visual_mode_input (input : Input) (_mode : VisualMode) :
    Option EditorAction :=
  match input with
  | ⟨.Esc, _, _, _⟩ => some (.SetMode .Normal)
  | ⟨.Char 'd', false, false, false⟩ =>
    some (.MultiAction [.Delete .Selection, .SetMode .Normal])
  | ⟨.Char 'y', false, false, false⟩ =>
    some (.MultiAction [.Yank .Selection, .SetMode .Normal])
  | ⟨.Char 'c', false, false, false⟩ =>
    some (.MultiAction [.Delete .Selection, .SetMode .Insert])
  | _ =>
    if is_movement_key input then (match_movement_key input).map (.MoveCursor ·)
    else none

/-- `handle_replace_mode_input` in `src/editor/handlers.rs`. -/
def handle_replace_mode_input (input : Input) : Option EditorAction :=
  match input with
  | ⟨.Esc, _, _, _⟩ =>
    some (.MultiAction [.MoveCursor .Left, .SetMode .Normal])
  | ⟨.Char 'c', true, _, _⟩ =>
    some (.MultiAction [.MoveCursor .Left, .SetMode .Normal])
  | ⟨.Char c, _, _, _⟩ =>
    some (.MultiAction [.ReplaceChar c, .MoveCursor .Forward])
  | _ => none

/-- `handle_input` in `src/editor/handlers.rs`: dispatch on the mode. -/
def handle_input (input : Input) (mode : EditorMode) : Option EditorAction :=
  match mode with
  | .Normal => handle_normal_mode_input input
  | .Insert => handle_insert_mode_input input
  | .Visual vmode => handle_visual_mode_input input vmode
  | .Replace => handle_replace_mode_input input

/-! ## Composite pane coordinator (`src/editor/composite.rs`) and event
routing (`src/ui.rs`) -/

/-- `CompositeEditor`: the ordered panes and the active index (layout
constraints and the remembered render area only matter to rendering and
click hit-testing and are omitted). -/
structure CompositeEditor where
  editors : List Editor
  active_index : Option Nat

/-- Replace the editor at an index. -/
def CompositeEditor.withEditor (comp : CompositeEditor) (i : Nat) (ed : Editor) :
    CompositeEditor :=
  { comp with editors := comp.editors.set i ed }

/-- `CompositeEditor::get_mode`: the active pane's mode. -/
def CompositeEditor.get_mode (comp : CompositeEditor) : Option EditorMode :=
  (comp.active_index.bind (fun i => comp.editors[i]?)).map (·.mode)

/-- `CompositeEditor::get_pending_action`: the active pane's pending
command. -/
def CompositeEditor.get_pending_action (comp : CompositeEditor) :
    Option EditorPendingAction :=
  match comp.active_index with
  | none => none
  | some i =>
    match comp.editors[i]? with
    | none => none
    | some ed => ed.pending_action

/-- `CompositeEditor::set_pending_action`: set the active pane's pending
command. -/
def CompositeEditor.set_pending_action (comp : CompositeEditor)
    (p : Option EditorPendingAction) : CompositeEditor :=
  match comp.active_index with
  | none => comp
  | some i =>
    match comp.editors[i]? with
    | none => comp
    | some ed => comp.withEditor i (ed.set_pending_action p)

/-- `CompositeEditor::execute_action`: vertical cursor motions cross pane
boundaries (reading the desired column from the pane being left before the
active index switches, and applying it to the newly active pane
afterwards); everything else forwards to the active pane.
`set_active_editor`'s restyling side effect is render-only and omitted. -/
def CompositeEditor.execute_action (comp : CompositeEditor) (action : EditorAction) :
    CompositeEditor :=
  match comp.active_index with
  | none => comp
  | some active_index =>
    let num_editors := comp.editors.length
    match comp.editors[active_index]? with
    | none => comp
    | some ed =>
      let step : CompositeEditor × Option (Nat × CursorMove) :=
        match action with
        | .MoveCursor .Up =>
          if ed.ta.row = 0 ∧ 0 < active_index then
            ({ comp with active_index := some (active_index - 1) },
             some (ed.ta.desired_col, .Bottom))
          else (comp.withEditor active_index (ed.execute_action action), none)
        | .MoveCursor .Down =>
          if ed.ta.lines.length - 1 ≤ ed.ta.row ∧ active_index + 1 < num_editors then
            ({ comp with active_index := some (active_index + 1) },
             some (ed.ta.desired_col, .Top))
          else (comp.withEditor active_index (ed.execute_action action), none)
        | .MoveCursor .Top =>
          if active_index ≤ 0 then (comp, some (ed.ta.desired_col, .Top))
          else ({ comp with active_index := some 0 }, some (ed.ta.desired_col, .Top))
        | .MoveCursor .Bottom =>
          if num_editors - 1 ≤ active_index then
            (comp, some (ed.ta.desired_col, .Bottom))
          else ({ comp with active_index := some (num_editors - 1) },
                some (ed.ta.desired_col, .Bottom))
        | _ => (comp.withEditor active_index (ed.execute_action action), none)
      match step.2 with
      | none => step.1
      | some (col, movement) =>
        match step.1.active_index with
        | none => step.1
        | some i =>
          match step.1.editors[i]? with
          | none => step.1
          | some ed =>
            step.1.withEditor i
              (({ ed with ta := ed.ta.set_desired_column col }).execute_action
                (.MoveCursor movement))

/-- `UserInterface::handle_editor_event` in `src/ui.rs`: route a key event
through the pending grammar (clearing the pending command when the second
stage does not recognise the key) or the per-mode handler, and execute the
resolved action on the composite editor (`handle_action`'s content log is
render-only and omitted). -/
def handle_editor_event (comp : CompositeEditor) (input : Input) : CompositeEditor :=
  match comp.get_mode with
  | none => comp
  | some mode =>
    match comp.get_pending_action with
    | some pending =>
      match handle_pending_action_input input pending with
      | some action => comp.execute_action action
      | none => comp.set_pending_action none
    | none =>
      match handle_input input mode with
      | some action => comp.execute_action action
      | none => comp

/-! ## Auxiliary predicates and fixtures used by the claim statements -/

/-- Whether an optional action is (at top level) a `Pending` action. -/
def returns_pending : Option EditorAction → Bool
  | some (.Pending _) => true
  | _ => false

/-- Whether an optional action is (at top level) a `MultiAction` (the
spec's `Batch`). -/
def is_multi_action : Option EditorAction → Bool
  | some (.MultiAction _) => true
  | _ => false

/-- Whether an action is (at top level) a `Pending` action. -/
def is_pending_action : EditorAction → Bool
  | .Pending _ => true
  | _ => false

/-- A pending command in its second stage: an operator whose modifier is
already set, or a pending replace-char. -/
def pending_second_stage : EditorPendingAction → Bool
  | .Delete (some _) => true
  | .Change (some _) => true
  | .Select (some _) => true
  | .Yank (some _) => true
  | .ReplaceChar => true
  | _ => false

/-- The three early `return`s of `Editor::execute_action` that skip the
trailing pending-command clear: `Insert(Line)`, an `Enter` key in
`ApplyInput`, and a `Line`-typed `Paste`, each on a single-line pane. -/
def Editor.hits_single_line_guard (ed : Editor) : EditorAction → Bool
  | .Insert .Line => ed.single_line
  | .ApplyInput input => ed.single_line && input.key = .Enter
  | .Paste => ed.single_line && isLineYank ed.yank_type
  | _ => false

/-- Whether one rendered frame keeps the selection inside the visible
window `[first, first + (last - first))`. -/
def frame_ok (r : MultiSelectListState × Nat × Nat) : Bool :=
  match r.1.selected with
  | some s => decide (r.2.1 ≤ s) && decide (s < r.2.1 + (r.2.2 - r.2.1))
  | none => true

/-- The spec's stepping scenario: 10 items of height `ITEM_HEIGHT` in a
viewport of height 9; render a frame, advance the selection by one, and
repeat, checking every frame with `frame_ok`. -/
def step_frames_ok : Nat → MultiSelectListState → Bool
  | 0, _ => true
  | k + 1, st =>
    let r := render_multiselect ⟨10, 0⟩ 1 9 st
    frame_ok r && step_frames_ok k (r.1.select_next)

/-- A pane in Normal mode over the given buffer with the cursor at
`(row, col)`, all other fields as `Editor::default` leaves them. -/
def mkPane (lines : List Line) (row col : Nat) : Editor :=
  { ta := { lines := lines, row := row, col := col, sel_start := none,
            yank := [], desired_col := col },
    mode := .Normal, pending_action := none, yank_type := none, single_line := false }

end TickTui

namespace TickTui

/-! # Theorems

Helper lemmas first, then one theorem per specification claim (with a
witness for every theorem that carries a hypothesis, and a counterexample
for every corrected claim). -/

/-- Properties of `accum_loop`: the window start never moves, the
accumulated height counts the items taken, at most `fuel` items are taken,
the height stays within `maxH`, and at least one item is taken when one
fits. -/
theorem accum_loop_spec (maxH : Nat) :
    ∀ fuel h last,
      last ≤ (accum_loop maxH fuel h last).2 ∧
      (accum_loop maxH fuel h last).1 =
        h + ITEM_HEIGHT * ((accum_loop maxH fuel h last).2 - last) ∧
      (accum_loop maxH fuel h last).2 ≤ last + fuel ∧
      (h ≤ maxH → (accum_loop maxH fuel h last).1 ≤ maxH) ∧
      (0 < fuel → h + ITEM_HEIGHT ≤ maxH → last < (accum_loop maxH fuel h last).2) := by
  intro fuel
  induction fuel with
  | zero => intro h last; simp [accum_loop]
  | succ fuel ih =>
    intro h last
    simp only [accum_loop, ITEM_HEIGHT]
    split
    · rename_i hgt
      simp only [accum_loop, ITEM_HEIGHT] at hgt ⊢
      refine ⟨le_refl _, by omega, by omega, fun _ => by omega, fun _ hle => by omega⟩
    · rename_i hgt
      obtain ⟨i1, i2, i3, i4, i5⟩ := ih (h + ITEM_HEIGHT) (last + 1)
      simp only [ITEM_HEIGHT] at i1 i2 i3 i4 i5 hgt
      refine ⟨by omega, by omega, by omega, fun hh => ?_, fun _ _ => by omega⟩
      exact i4 (by omega)

/-- Closed form of `hide_front_loop` on heights that are multiples of the
item height, with sufficient fuel. -/
theorem hide_front_loop_spec :
    ∀ (k fuel first : Nat), k ≤ fuel →
      hide_front_loop fuel (ITEM_HEIGHT * k) first =
        (if k = 0 then (0, first) else (ITEM_HEIGHT, first + (k - 1))) := by
  intro k
  induction k with
  | zero =>
    intro fuel first _
    cases fuel with
    | zero => simp [hide_front_loop]
    | succ fuel => simp [hide_front_loop, ITEM_HEIGHT]
  | succ k ih =>
    intro fuel first hk
    cases fuel with
    | zero => omega
    | succ fuel =>
      simp only [hide_front_loop]
      rcases Nat.eq_zero_or_pos k with hk0 | hk0
      · subst hk0
        rw [if_neg (by simp [ITEM_HEIGHT])]
        simp [ITEM_HEIGHT]
      · rw [if_pos (by simp only [ITEM_HEIGHT]; omega)]
        have h3 : ITEM_HEIGHT * (k + 1) - ITEM_HEIGHT = ITEM_HEIGHT * k := by
          simp only [ITEM_HEIGHT]; omega
        rw [h3, ih fuel (first + 1) (by omega)]
        rw [if_neg (by omega), if_neg (by omega)]
        have : first + 1 + (k - 1) = first + (k + 1 - 1) := by omega
        rw [this]

/-- `grow_loop` is the identity when the index is already inside the
window. -/
theorem grow_loop_lt (idx : Nat) (fuel first last h : Nat) (hlt : idx < last) :
    grow_loop idx fuel first last h = (first, last, h) := by
  cases fuel with
  | zero => rfl
  | succ fuel =>
    simp only [grow_loop]
    rw [if_neg (by omega : ¬ last ≤ idx)]

/-- Closed form of `grow_loop` when the index lies at or beyond the
provisional window: the final window is exactly `[idx, idx + 1)`. -/
theorem grow_loop_ge (idx : Nat) :
    ∀ (fuel first last h : Nat), h = ITEM_HEIGHT * (last - first) → first < last →
      last ≤ idx → idx + 1 ≤ last + fuel →
      grow_loop idx fuel first last h = (idx, idx + 1, ITEM_HEIGHT) := by
  intro fuel
  induction fuel with
  | zero => intro first last h _ _ _ _; omega
  | succ fuel ih =>
    intro first last h hh hfl hli hfuel
    simp only [grow_loop, if_pos hli]
    have hk : h + ITEM_HEIGHT = ITEM_HEIGHT * (last + 1 - first) := by
      simp only [ITEM_HEIGHT] at hh ⊢; omega
    rw [hk, hide_front_loop_spec (last + 1 - first) (ITEM_HEIGHT * (last + 1 - first)) first
      (by simp only [ITEM_HEIGHT]; omega)]
    rw [if_neg (by omega)]
    have hfirst : first + (last + 1 - first - 1) = last := by omega
    simp only [hfirst]
    rcases Nat.lt_or_ge idx (last + 1) with hcase | hcase
    · have : idx = last := by omega
      subst this
      exact grow_loop_lt idx fuel idx (idx + 1) ITEM_HEIGHT (by omega)
    · exact ih last (last + 1) ITEM_HEIGHT (by simp [ITEM_HEIGHT]) (by omega) (by omega)
        (by omega)

/-- One-step unfolding of `hide_back_loop`. -/
theorem hide_back_loop_succ (maxH fuel h last : Nat) :
    hide_back_loop maxH (fuel + 1) h last =
      if maxH < h then hide_back_loop maxH fuel (h - ITEM_HEIGHT) (last - 1)
      else (h, last) := rfl

/-- After the backward phase adds one item of height `ITEM_HEIGHT` to a
window of height `h ≤ maxH`, its inner loop runs at most once. -/
theorem hide_back_loop_step (maxH h last : Nat) (hh : h ≤ maxH) :
    hide_back_loop maxH (h + ITEM_HEIGHT) (h + ITEM_HEIGHT) last =
      if maxH < h + ITEM_HEIGHT then (h, last - 1) else (h + ITEM_HEIGHT, last) := by
  have e1 : h + ITEM_HEIGHT = (h + 2) + 1 := rfl
  rw [e1, hide_back_loop_succ]
  split
  · have e3 : h + 2 + 1 - ITEM_HEIGHT = h := by simp only [ITEM_HEIGHT]; omega
    have e2 : h + 2 = (h + 1) + 1 := rfl
    rw [e3, e2, hide_back_loop_succ]
    rw [if_neg (by omega : ¬ maxH < h)]
  · rfl

/-- `shrink_loop` is the identity when the index is already at or after the
window start. -/
theorem shrink_loop_ge (idx maxH fuel first last h : Nat) (hge : first ≤ idx) :
    shrink_loop idx maxH fuel first last h = (first, last, h) := by
  cases fuel with
  | zero => rfl
  | succ fuel =>
    simp only [shrink_loop]
    rw [if_neg (by omega : ¬ idx < first)]

/-- The backward phase moves the window start back to the index while
keeping the window non-empty. -/
theorem shrink_loop_lt (idx maxH : Nat) (hmax : ITEM_HEIGHT ≤ maxH) :
    ∀ (fuel first last h : Nat), h = ITEM_HEIGHT * (last - first) → first < last →
      h ≤ maxH → idx < first → first ≤ fuel + idx →
      (shrink_loop idx maxH fuel first last h).1 = idx ∧
      idx < (shrink_loop idx maxH fuel first last h).2.1 := by
  intro fuel
  induction fuel with
  | zero => intro first last h _ _ _ _ _; omega
  | succ fuel ih =>
    intro first last h hh hfl hhm hif hfuel
    simp only [shrink_loop, if_pos hif]
    rw [hide_back_loop_step maxH h last hhm]
    split
    · rcases Nat.lt_or_ge idx (first - 1) with hc | hc
      · exact ih (first - 1) (last - 1) h
          (by simp only [ITEM_HEIGHT] at hh ⊢; omega) (by omega) hhm hc (by omega)
      · rw [shrink_loop_ge idx maxH fuel (first - 1) (last - 1) h hc]
        exact ⟨(by omega : first - 1 = idx), (by omega : idx < last - 1)⟩
    · rcases Nat.lt_or_ge idx (first - 1) with hc | hc
      · exact ih (first - 1) last (h + ITEM_HEIGHT)
          (by simp only [ITEM_HEIGHT] at hh ⊢; omega) (by omega) (by omega) hc (by omega)
      · rw [shrink_loop_ge idx maxH fuel (first - 1) last (h + ITEM_HEIGHT) hc]
        exact ⟨(by omega : first - 1 = idx), (by omega : idx < last)⟩

/-- With scroll padding 0 (the program's only configuration) the padded
index to display is just the clamped selection. -/
theorem apply_scroll_padding_zero (n s maxH first last : Nat) :
    apply_scroll_padding_to_selected_index ⟨n, 0⟩ (some s) maxH first last =
      some (min s (n - 1)) := by
  simp only [apply_scroll_padding_to_selected_index, pad_loop, Nat.add_zero,
    Nat.sub_zero, ite_self]
  rw [min_assoc, min_self]

/-- Core of claim C1: with scroll padding 0 and a viewport at least one
item high, `get_items_bounds` always returns a window containing the
clamped selection. -/
theorem get_items_bounds_window (n off s maxH : Nat) (hn : 0 < n) (hs : s ≤ n - 1)
    (hmax : ITEM_HEIGHT ≤ maxH) :
    (get_items_bounds ⟨n, 0⟩ (some s) off maxH).1 ≤ s ∧
    s < (get_items_bounds ⟨n, 0⟩ (some s) off maxH).2 := by
  simp only [get_items_bounds, apply_scroll_padding_zero, Option.getD_some,
    min_eq_left hs]
  obtain ⟨a1, a2, a3, a4, a5⟩ := accum_loop_spec maxH (n - off ⊓ (n - 1)) 0 (off ⊓ (n - 1))
  set p := accum_loop maxH (n - off ⊓ (n - 1)) 0 (off ⊓ (n - 1)) with hp
  have hoffle : (off ⊓ (n - 1)) ≤ n - 1 := min_le_right _ _
  have hfl : off ⊓ (n - 1) < p.2 := a5 (by omega) (by omega)
  have hform : p.1 = ITEM_HEIGHT * (p.2 - off ⊓ (n - 1)) := by simpa using a2
  rcases Nat.lt_or_ge s p.2 with hB | hB
  · rw [grow_loop_lt s (s + 1) (off ⊓ (n - 1)) p.2 p.1 hB]
    rcases Nat.lt_or_ge s (off ⊓ (n - 1)) with hA | hA
    · have hshr := shrink_loop_lt s maxH hmax (off ⊓ (n - 1)) (off ⊓ (n - 1)) p.2 p.1
        hform hfl (a4 (by omega)) hA (by omega)
      exact ⟨le_of_eq hshr.1, hshr.2⟩
    · have hshr := shrink_loop_ge s maxH (off ⊓ (n - 1)) (off ⊓ (n - 1)) p.2 p.1 hA
      rw [hshr]
      exact ⟨hA, hB⟩
  · rw [grow_loop_ge s (s + 1) (off ⊓ (n - 1)) p.2 p.1 hform hfl hB (by omega)]
    rw [shrink_loop_ge s maxH s s (s + 1) ITEM_HEIGHT (le_refl s)]
    exact ⟨le_refl s, Nat.lt_succ_self s⟩

/-- The windowing invariant at the render-pass level: after a render of a
non-empty item list (scroll padding 0, as the program always configures)
with a set selection into a viewport at least one item high, the persisted
offset is the window start, the selection is clamped to the item count, and
the clamped selection lies inside `[offset, offset + visible_count)`. -/
theorem render_multiselect_window (n off s maxHeight : Nat) (vs : Option Nat)
    (hn : 0 < n) (hmax : ITEM_HEIGHT ≤ maxHeight) :
    (render_multiselect ⟨n, 0⟩ 1 maxHeight ⟨off, some s, vs⟩).1.selected =
      some (min s (n - 1)) ∧
    (render_multiselect ⟨n, 0⟩ 1 maxHeight ⟨off, some s, vs⟩).1.offset =
      (render_multiselect ⟨n, 0⟩ 1 maxHeight ⟨off, some s, vs⟩).2.1 ∧
    (render_multiselect ⟨n, 0⟩ 1 maxHeight ⟨off, some s, vs⟩).2.1 ≤ min s (n - 1) ∧
    min s (n - 1) <
      (render_multiselect ⟨n, 0⟩ 1 maxHeight ⟨off, some s, vs⟩).2.1 +
        ((render_multiselect ⟨n, 0⟩ 1 maxHeight ⟨off, some s, vs⟩).2.2 -
          (render_multiselect ⟨n, 0⟩ 1 maxHeight ⟨off, some s, vs⟩).2.1) := by
  have hne : ¬ ((1 : Nat) = 0 ∨ maxHeight = 0) := by
    simp only [ITEM_HEIGHT] at hmax; omega
  simp only [render_multiselect, if_neg hne]
  rw [if_neg (by omega : ¬ n = 0)]
  rcases Nat.lt_or_ge s n with hcl | hcl
  · rw [if_neg (by omega : ¬ n ≤ s), min_eq_left (by omega : s ≤ n - 1)]
    have hw := get_items_bounds_window n off s maxHeight hn (by omega) hmax
    refine ⟨rfl, rfl, ?_, ?_⟩
    · show (get_items_bounds ⟨n, 0⟩ (some s) off maxHeight).1 ≤ s
      exact hw.1
    · show s < (get_items_bounds ⟨n, 0⟩ (some s) off maxHeight).1 +
        ((get_items_bounds ⟨n, 0⟩ (some s) off maxHeight).2 -
          (get_items_bounds ⟨n, 0⟩ (some s) off maxHeight).1)
      have h1 := hw.1
      have h2 := hw.2
      omega
  · rw [if_pos (by omega : n ≤ s), min_eq_right (by omega : n - 1 ≤ s)]
    have hw := get_items_bounds_window n off (n - 1) maxHeight hn (le_refl _) hmax
    refine ⟨rfl, rfl, ?_, ?_⟩
    · show (get_items_bounds ⟨n, 0⟩ (some (n - 1)) off maxHeight).1 ≤ n - 1
      exact hw.1
    · show n - 1 < (get_items_bounds ⟨n, 0⟩ (some (n - 1)) off maxHeight).1 +
        ((get_items_bounds ⟨n, 0⟩ (some (n - 1)) off maxHeight).2 -
          (get_items_bounds ⟨n, 0⟩ (some (n - 1)) off maxHeight).1)
      have h1 := hw.1
      have h2 := hw.2
      omega

/-- Claim C1 (amended): for every item list and every windowing pass into a
viewport at least one item (`ITEM_HEIGHT`) high — a render with a non-empty
item list and a set selection — after `get_items_bounds` computes
`(first, last)` and the state's offset is updated to `first`, the (clamped)
selected index satisfies `offset ≤ selected` and lies before the end of the
visible window, `selected < offset + visible_count`; in particular, with 10
items of fixed height 3 and viewport height 9, stepping the selection from
0 to 9 one index at a time never yields a frame with the selection outside
`[offset, offset + visible_count)`.  (On a viewport shorter than one item
the windowing can return an empty window that excludes the selection, so
the height hypothesis is necessary; see the counterexample.) -/
theorem c1_window_invariant :
    (∀ (n off s maxHeight : Nat) (vs : Option Nat), 0 < n →
      ITEM_HEIGHT ≤ maxHeight →
      (render_multiselect ⟨n, 0⟩ 1 maxHeight ⟨off, some s, vs⟩).1.selected =
        some (min s (n - 1)) ∧
      (render_multiselect ⟨n, 0⟩ 1 maxHeight ⟨off, some s, vs⟩).1.offset =
        (render_multiselect ⟨n, 0⟩ 1 maxHeight ⟨off, some s, vs⟩).2.1 ∧
      (render_multiselect ⟨n, 0⟩ 1 maxHeight ⟨off, some s, vs⟩).2.1 ≤ min s (n - 1) ∧
      min s (n - 1) <
        (render_multiselect ⟨n, 0⟩ 1 maxHeight ⟨off, some s, vs⟩).2.1 +
          ((render_multiselect ⟨n, 0⟩ 1 maxHeight ⟨off, some s, vs⟩).2.2 -
            (render_multiselect ⟨n, 0⟩ 1 maxHeight ⟨off, some s, vs⟩).2.1)) ∧
    step_frames_ok 10 ⟨0, some 0, none⟩ = true :=
  ⟨fun n off s maxHeight vs hn hmax =>
    render_multiselect_window n off s maxHeight vs hn hmax, by decide⟩

/-- Claim C1 witness: the windowing invariant at 10 items, offset 0,
selection 5, viewport height 9. -/
theorem c1_window_invariant_witness :
    ((0 : Nat) < 10 ∧ ITEM_HEIGHT ≤ 9) ∧
    ((render_multiselect ⟨10, 0⟩ 1 9 ⟨0, some 5, none⟩).1.selected =
      some (min 5 (10 - 1)) ∧
    (render_multiselect ⟨10, 0⟩ 1 9 ⟨0, some 5, none⟩).1.offset =
      (render_multiselect ⟨10, 0⟩ 1 9 ⟨0, some 5, none⟩).2.1 ∧
    (render_multiselect ⟨10, 0⟩ 1 9 ⟨0, some 5, none⟩).2.1 ≤ min 5 (10 - 1) ∧
    min 5 (10 - 1) <
      (render_multiselect ⟨10, 0⟩ 1 9 ⟨0, some 5, none⟩).2.1 +
        ((render_multiselect ⟨10, 0⟩ 1 9 ⟨0, some 5, none⟩).2.2 -
          (render_multiselect ⟨10, 0⟩ 1 9 ⟨0, some 5, none⟩).2.1)) :=
  ⟨⟨by decide, by decide⟩, c1_window_invariant.1 10 0 5 9 none (by decide) (by decide)⟩

/-- Claim C1 counterexample: on a viewport of height 2 (shorter than one
item) with 2 items, persisted offset 1 and selection 0, the windowing pass
returns the empty window `(0, 0)`; the selection does not lie before the
end of the visible window, refuting the claim as stated for arbitrary
windowing passes. -/
theorem c1_window_counterexample :
    (render_multiselect ⟨2, 0⟩ 1 2 ⟨1, some 0, none⟩).1.selected = some 0 ∧
    (render_multiselect ⟨2, 0⟩ 1 2 ⟨1, some 0, none⟩).2 = (0, 0) ∧
    frame_ok (render_multiselect ⟨2, 0⟩ 1 2 ⟨1, some 0, none⟩) = false := by
  decide

/-- A second-stage pending command (operator with a set modifier, or a
pending replace-char) never resolves to another `Pending` action. -/
theorem second_stage_never_pending (input : Input) (pending : EditorPendingAction)
    (hp : pending_second_stage pending = true) :
    returns_pending (handle_pending_action_input input pending) = false := by
  cases pending with
  | Delete m =>
    cases m with
    | none => simp [pending_second_stage] at hp
    | some modifier =>
      cases modifier <;>
        (simp only [handle_pending_action_input]; split <;> simp [returns_pending])
  | Change m =>
    cases m with
    | none => simp [pending_second_stage] at hp
    | some modifier =>
      cases modifier <;>
        (simp only [handle_pending_action_input]; split <;> simp [returns_pending])
  | Select m =>
    cases m with
    | none => simp [pending_second_stage] at hp
    | some modifier =>
      cases modifier <;>
        (simp only [handle_pending_action_input]; split <;> simp [returns_pending])
  | Yank m =>
    cases m with
    | none => simp [pending_second_stage] at hp
    | some modifier =>
      cases modifier <;>
        (simp only [handle_pending_action_input]; split <;> simp [returns_pending])
  | ReplaceChar =>
    simp only [handle_pending_action_input]
    split <;> simp [returns_pending]

/-- A key the second stage does not recognise makes `handle_editor_event`
clear the pending command and fire nothing else. -/
theorem unrecognized_key_aborts (comp : CompositeEditor) (input : Input) (i : Nat)
    (ed : Editor) (p : EditorPendingAction) (hai : comp.active_index = some i)
    (hed : comp.editors[i]? = some ed) (hp : ed.pending_action = some p)
    (hnone : handle_pending_action_input input p = none) :
    handle_editor_event comp input = comp.set_pending_action none := by
  simp [handle_editor_event, CompositeEditor.get_mode,
    CompositeEditor.get_pending_action, hai, hed, hp, hnone]

/-- Claim C4: the pending grammar resolves or aborts within 2 keystrokes
after the initiating operator: `handle_pending_action_input` applied to an
operator with an already-set modifier or to a pending replace-char never
returns another `Pending` action, and for any key it does not recognise it
returns `None`, whereupon the caller clears the pane's pending command — a
silent no-op, never an error. -/
theorem c4_pending_resolves :
    (∀ (input : Input) (pending : EditorPendingAction),
      pending_second_stage pending = true →
      returns_pending (handle_pending_action_input input pending) = false) ∧
    (∀ (comp : CompositeEditor) (input : Input) (i : Nat) (ed : Editor)
        (p : EditorPendingAction),
      comp.active_index = some i → comp.editors[i]? = some ed →
      ed.pending_action = some p →
      handle_pending_action_input input p = none →
      handle_editor_event comp input = comp.set_pending_action none) :=
  ⟨second_stage_never_pending, unrecognized_key_aborts⟩

/-- Claim C4 witness: the key `z` after `di` resolves to no action, and on
a one-pane composite with that pending command the event handler clears the
pending command. -/
theorem c4_pending_resolves_witness :
    (pending_second_stage (.Delete (some .Inner)) = true ∧
      returns_pending
        (handle_pending_action_input ⟨.Char 'z', false, false, false⟩
          (.Delete (some .Inner))) = false) ∧
    handle_editor_event
        ⟨[{ mkPane [['a']] 0 0 with pending_action := some (.Delete (some .Inner)) }],
          some 0⟩
        ⟨.Char 'z', false, false, false⟩ =
      CompositeEditor.set_pending_action
        ⟨[{ mkPane [['a']] 0 0 with pending_action := some (.Delete (some .Inner)) }],
          some 0⟩ none :=
  ⟨⟨rfl, c4_pending_resolves.1 ⟨.Char 'z', false, false, false⟩
      (.Delete (some .Inner)) rfl⟩,
   c4_pending_resolves.2
     ⟨[{ mkPane [['a']] 0 0 with pending_action := some (.Delete (some .Inner)) }],
       some 0⟩
     ⟨.Char 'z', false, false, false⟩ 0
     { mkPane [['a']] 0 0 with pending_action := some (.Delete (some .Inner)) }
     (.Delete (some .Inner)) rfl rfl rfl rfl⟩

/-- Claim C5: in a composite group of three panes with pane 2 active and
its cursor at row 0, `MoveCursor(Up)` makes pane 1 active, places its
cursor on the last row of pane 1, and sets the column to
`min (previous desired column) (last-line length - 1)` — the desired
column is the one read from pane 2 (the pane being left) before the active
index switched, and it is applied to pane 1 after the hand-off.  Panes 0
and 2 are untouched. -/
theorem c5_cross_pane_up (e0 e1 e2 : Editor) (h0 : e2.ta.row = 0) :
    (CompositeEditor.execute_action ⟨[e0, e1, e2], some 2⟩
      (.MoveCursor .Up)).active_index = some 1 ∧
    (CompositeEditor.execute_action ⟨[e0, e1, e2], some 2⟩
      (.MoveCursor .Up)).editors[0]? = some e0 ∧
    (CompositeEditor.execute_action ⟨[e0, e1, e2], some 2⟩
      (.MoveCursor .Up)).editors[2]? = some e2 ∧
    ((CompositeEditor.execute_action ⟨[e0, e1, e2], some 2⟩
      (.MoveCursor .Up)).editors[1]?.map (fun e => e.ta.row)) =
      some (e1.ta.lines.length - 1) ∧
    ((CompositeEditor.execute_action ⟨[e0, e1, e2], some 2⟩
      (.MoveCursor .Up)).editors[1]?.map (fun e => e.ta.col)) =
      some (min e2.ta.desired_col
        ((e1.ta.lines.getD (e1.ta.lines.length - 1) []).length - 1)) := by
  simp [CompositeEditor.execute_action, h0, CompositeEditor.withEditor,
    Editor.execute_action, Editor.execute_step, TextArea.move_cursor,
    TextArea.set_desired_column, TextArea.fitVertical, TextArea.lineLen, List.set]

/-- Claim C5 witness: with pane 1 holding `["xy", "abc"]` and pane 2's
desired column 2, crossing up from pane 2 lands on pane 1's last row at
column `min 2 (3 - 1) = 2`. -/
theorem c5_cross_pane_up_witness :
    ((mkPane [['z']] 0 0).ta.row = 0) ∧
    ((CompositeEditor.execute_action
      ⟨[mkPane [['q']] 0 0, mkPane [['x', 'y'], ['a', 'b', 'c']] 0 0,
        { mkPane [['z']] 0 0 with ta := { (mkPane [['z']] 0 0).ta with desired_col := 2 } }],
        some 2⟩ (.MoveCursor .Up)).active_index = some 1 ∧
    (CompositeEditor.execute_action
      ⟨[mkPane [['q']] 0 0, mkPane [['x', 'y'], ['a', 'b', 'c']] 0 0,
        { mkPane [['z']] 0 0 with ta := { (mkPane [['z']] 0 0).ta with desired_col := 2 } }],
        some 2⟩ (.MoveCursor .Up)).editors[0]? = some (mkPane [['q']] 0 0) ∧
    (CompositeEditor.execute_action
      ⟨[mkPane [['q']] 0 0, mkPane [['x', 'y'], ['a', 'b', 'c']] 0 0,
        { mkPane [['z']] 0 0 with ta := { (mkPane [['z']] 0 0).ta with desired_col := 2 } }],
        some 2⟩ (.MoveCursor .Up)).editors[2]? =
      some { mkPane [['z']] 0 0 with
              ta := { (mkPane [['z']] 0 0).ta with desired_col := 2 } } ∧
    ((CompositeEditor.execute_action
      ⟨[mkPane [['q']] 0 0, mkPane [['x', 'y'], ['a', 'b', 'c']] 0 0,
        { mkPane [['z']] 0 0 with ta := { (mkPane [['z']] 0 0).ta with desired_col := 2 } }],
        some 2⟩ (.MoveCursor .Up)).editors[1]?.map (fun e => e.ta.row)) =
      some ((mkPane [['x', 'y'], ['a', 'b', 'c']] 0 0).ta.lines.length - 1) ∧
    ((CompositeEditor.execute_action
      ⟨[mkPane [['q']] 0 0, mkPane [['x', 'y'], ['a', 'b', 'c']] 0 0,
        { mkPane [['z']] 0 0 with ta := { (mkPane [['z']] 0 0).ta with desired_col := 2 } }],
        some 2⟩ (.MoveCursor .Up)).editors[1]?.map (fun e => e.ta.col)) =
      some (min
        { mkPane [['z']] 0 0 with
            ta := { (mkPane [['z']] 0 0).ta with desired_col := 2 } }.ta.desired_col
        (((mkPane [['x', 'y'], ['a', 'b', 'c']] 0 0).ta.lines.getD
            ((mkPane [['x', 'y'], ['a', 'b', 'c']] 0 0).ta.lines.length - 1) []).length
          - 1))) :=
  ⟨rfl, c5_cross_pane_up (mkPane [['q']] 0 0) (mkPane [['x', 'y'], ['a', 'b', 'c']] 0 0)
    { mkPane [['z']] 0 0 with ta := { (mkPane [['z']] 0 0).ta with desired_col := 2 } }
    rfl⟩

/-- Claim C2: on the buffer `["a", "b"]` with the cursor on the second
line, `Delete(Line)` (the resolution of `dd`) leaves exactly `["a"]` with
the cursor at `(0, 0)`; the deleted span ran from the end of the previous
line to the end of the current line (the register receives `"\nb"`, and
`select_current_line` anchored the selection at `(0, 1)` with the cursor at
`(1, 1)`). -/
theorem c2_dd_last_line :
    ((mkPane [['a'], ['b']] 1 0).execute_action (.Delete .Line)).ta.lines = [['a']] ∧
    ((mkPane [['a'], ['b']] 1 0).execute_action (.Delete .Line)).ta.row = 0 ∧
    ((mkPane [['a'], ['b']] 1 0).execute_action (.Delete .Line)).ta.col = 0 ∧
    ((mkPane [['a'], ['b']] 1 0).execute_action (.Delete .Line)).ta.yank = ['\n', 'b'] ∧
    (select_current_line (mkPane [['a'], ['b']] 1 0).ta).1.sel_start = some (0, 1) ∧
    (select_current_line (mkPane [['a'], ['b']] 1 0).ta).1.row = 1 ∧
    (select_current_line (mkPane [['a'], ['b']] 1 0).ta).1.col = 1 := by
  decide

/-- Claim C3 (amended): in Normal mode the keys `I`, `a`, `A`, `o`, `O`
each resolve to a `Batch` (`MultiAction`) combining a cursor adjustment, an
optional line-insert and `SetMode(Insert)`, but plain `i` resolves to the
bare `SetMode(Insert)` action, not a `Batch`. -/
theorem c3_insert_keys :
    handle_input ⟨.Char 'i', false, false, false⟩ .Normal =
      some (.SetMode .Insert) ∧
    handle_input ⟨.Char 'I', false, false, true⟩ .Normal =
      some (.MultiAction [.MoveCursor .Head, .SetMode .Insert]) ∧
    handle_input ⟨.Char 'a', false, false, false⟩ .Normal =
      some (.MultiAction [.MoveCursor .Right, .SetMode .Insert]) ∧
    handle_input ⟨.Char 'A', false, false, true⟩ .Normal =
      some (.MultiAction [.MoveCursor .End, .SetMode .Insert]) ∧
    handle_input ⟨.Char 'o', false, false, false⟩ .Normal =
      some (.MultiAction [.MoveCursor .End, .Insert .Line, .SetMode .Insert]) ∧
    handle_input ⟨.Char 'O', false, false, true⟩ .Normal =
      some (.MultiAction
        [.MoveCursor .Up, .MoveCursor .End, .Insert .Line, .SetMode .Insert]) :=
  ⟨rfl, rfl, rfl, rfl, rfl, rfl⟩

/-- Claim C3 counterexample: plain `i` in Normal mode does not produce a
`Batch` (`MultiAction`); it maps directly to `SetMode(Insert)`. -/
theorem c3_plain_i_counterexample :
    handle_input ⟨.Char 'i', false, false, false⟩ .Normal =
      some (.SetMode .Insert) ∧
    is_multi_action (handle_input ⟨.Char 'i', false, false, false⟩ .Normal) = false :=
  ⟨rfl, rfl⟩

/-- Claim C10: `select(None)` clears the selection and also resets the
offset to 0, while `select(Some i)` changes only the selection and leaves
the offset and `visual_start` unchanged; consequently rendering with an
empty item list (which calls `select(None)`) discards the persisted scroll
offset. -/
theorem c10_select_none_resets_offset :
    (∀ st : MultiSelectListState, st.select none = ⟨0, none, st.visual_start⟩) ∧
    (∀ (st : MultiSelectListState) (i : Nat),
      st.select (some i) = ⟨st.offset, some i, st.visual_start⟩) ∧
    (∀ (L : MultiSelectList) (w h : Nat) (st : MultiSelectListState),
      L.len = 0 → 0 < w → 0 < h →
      (render_multiselect L w h st).1 = ⟨0, none, st.visual_start⟩) := by
  refine ⟨fun st => rfl, fun st i => rfl, fun L w h st hL hw hh => ?_⟩
  simp [render_multiselect, hL, Nat.pos_iff_ne_zero.mp hw, Nat.pos_iff_ne_zero.mp hh,
    MultiSelectListState.select]

/-- Claim C10 witness: the three statements at concrete inputs. -/
theorem c10_select_none_resets_offset_witness :
    ((⟨7, some 3, some 1⟩ : MultiSelectListState).select none = ⟨0, none, some 1⟩) ∧
    ((⟨7, some 3, some 1⟩ : MultiSelectListState).select (some 4) = ⟨7, some 4, some 1⟩) ∧
    ((0 : Nat) < 1) ∧
    (render_multiselect ⟨0, 0⟩ 1 5 ⟨7, some 3, some 1⟩).1 = ⟨0, none, some 1⟩ :=
  ⟨c10_select_none_resets_offset.1 ⟨7, some 3, some 1⟩,
   c10_select_none_resets_offset.2.1 ⟨7, some 3, some 1⟩ 4,
   by decide,
   c10_select_none_resets_offset.2.2 ⟨0, 0⟩ 1 5 ⟨7, some 3, some 1⟩ rfl
     (by decide) (by decide)⟩

/-- Claim C6: with an active visual range, `remove_selected_tasks` removes
every item in the inclusive, order-independent range `[lo, hi]` between
`visual_start` and `selected`, selects `lo` and clears `visual_start` (the
standard clamp of the selection into the bounds of the remaining items
happens on the next render pass, stated here as the last conjunct); with no
active range, the single selected item is removed and the selection stays
at the same index. -/
theorem c6_remove_selected :
    (∀ (α : Type) (tl : TaskList α) (curr start : Nat),
      tl.list_state.selected = some curr →
      tl.list_state.visual_start = some start →
      max curr start < tl.tasks.length →
      tl.remove_selected_tasks.tasks =
        tl.tasks.take (min curr start) ++ tl.tasks.drop (max curr start + 1) ∧
      tl.remove_selected_tasks.list_state.selected = some (min curr start) ∧
      tl.remove_selected_tasks.list_state.visual_start = none) ∧
    (∀ (α : Type) (tl : TaskList α) (curr : Nat),
      tl.list_state.selected = some curr →
      tl.list_state.visual_start = none →
      curr < tl.tasks.length →
      tl.remove_selected_tasks.tasks = tl.tasks.eraseIdx curr ∧
      tl.remove_selected_tasks.list_state.selected = some curr ∧
      tl.remove_selected_tasks.list_state.visual_start = none) ∧
    (∀ (n lo off w h : Nat) (vs : Option Nat), n ≠ 0 → 0 < w → 0 < h →
      (render_multiselect ⟨n, 0⟩ w h ⟨off, some lo, vs⟩).1.selected =
        some (min lo (n - 1))) := by
  refine ⟨fun α tl curr start h1 h2 hlt => ?_, fun α tl curr h1 h2 hlt => ?_,
    fun n lo off w h vs hn hw hh => ?_⟩
  · have hcurr : curr < tl.tasks.length := (le_max_left curr start).trans_lt hlt
    have hstart : start < tl.tasks.length := (le_max_right curr start).trans_lt hlt
    simp only [TaskList.remove_selected_tasks, h1, h2, TaskList.remove_range_inclusive]
    rcases le_or_lt start curr with hc | hc
    · simp only [if_pos hc]
      rw [if_pos ⟨hstart, hcurr, hc⟩]
      simp [MultiSelectListState.select, MultiSelectListState.end_visual_selection,
        min_eq_right hc, max_eq_left hc]
    · simp only [if_neg (by omega : ¬ start ≤ curr)]
      rw [if_pos ⟨hcurr, hstart, hc.le⟩]
      simp [MultiSelectListState.select, MultiSelectListState.end_visual_selection,
        min_eq_left hc.le, max_eq_right hc.le]
  · simp [TaskList.remove_selected_tasks, h1, h2, TaskList.remove_task, if_pos hlt,
      MultiSelectListState.select]
  · simp only [render_multiselect]
    rw [if_neg (by omega : ¬ (w = 0 ∨ h = 0))]
    rw [if_neg (by simpa using hn)]
    rcases le_or_lt n lo with hcl | hcl
    · simp [if_pos hcl, MultiSelectListState.select, min_eq_right (by omega : n - 1 ≤ lo)]
    · simp [if_neg (by omega : ¬ n ≤ lo), MultiSelectListState.select,
        min_eq_left (by omega : lo ≤ n - 1)]

/-- Claim C6 witness: removing the visual range `[2, 5]` from seven tasks
yields the tasks outside the range, `selected = 2` and
`visual_start = None`; and the next render keeps the selection at 2. -/
theorem c6_remove_selected_witness :
    (({ tasks := [0, 1, 2, 3, 4, 5, 6], list_state := ⟨0, some 5, some 2⟩} :
        TaskList Nat).list_state.selected = some 5 ∧
      max 5 2 < 7) ∧
    (({ tasks := [0, 1, 2, 3, 4, 5, 6], list_state := ⟨0, some 5, some 2⟩} :
        TaskList Nat).remove_selected_tasks.tasks =
        [0, 1, 2, 3, 4, 5, 6].take (min 5 2) ++ [0, 1, 2, 3, 4, 5, 6].drop (max 5 2 + 1) ∧
      ({ tasks := [0, 1, 2, 3, 4, 5, 6], list_state := ⟨0, some 5, some 2⟩} :
        TaskList Nat).remove_selected_tasks.list_state.selected = some (min 5 2) ∧
      ({ tasks := [0, 1, 2, 3, 4, 5, 6], list_state := ⟨0, some 5, some 2⟩} :
        TaskList Nat).remove_selected_tasks.list_state.visual_start = none) ∧
    (render_multiselect ⟨3, 0⟩ 1 9 ⟨0, some 2, none⟩).1.selected = some (min 2 (3 - 1)) :=
  ⟨⟨rfl, by decide⟩,
   c6_remove_selected.1 Nat
     { tasks := [0, 1, 2, 3, 4, 5, 6], list_state := ⟨0, some 5, some 2⟩ }
     5 2 rfl rfl (by decide),
   c6_remove_selected.2.2 3 2 0 1 9 none (by decide) (by decide) (by decide)⟩

/-- A line without newline characters splits into a single segment. -/
theorem splitNewlines_no_newline : ∀ (y : Line), '\n' ∉ y → splitNewlines y = [y] := by
  intro y
  induction y with
  | nil => intro _; rfl
  | cons c rest ih =>
    intro hm
    have hc : ¬ c = '\n' := fun h => hm (h ▸ List.mem_cons_self c rest)
    simp only [splitNewlines, ih (fun h => hm (List.mem_cons_of_mem c h))]
    rw [if_neg hc]

/-- Setting an index to the element already there is the identity. -/
theorem set_getD_self {α : Type} :
    ∀ (l : List α) (r : Nat) (d : α), r < l.length → l.set r (l.getD r d) = l := by
  intro l
  induction l with
  | nil => intro r d h; simp at h
  | cons a t ih =>
    intro r d h
    cases r with
    | zero => simp
    | succ r => simpa [List.getD] using ih r d (by simpa using h)

/-- `getD` at the junction of an append. -/
theorem getD_append_cons {α : Type} :
    ∀ (l1 : List α) (a : α) (l2 : List α) (d : α),
      (l1 ++ a :: l2).getD l1.length d = a := by
  intro l1
  induction l1 with
  | nil => intro a l2 d; rfl
  | cons b t ih => intro a l2 d; simpa using ih a l2 d

/-- `getElem` at the junction of an append. -/
theorem getElem_append_cons {α : Type} :
    ∀ (l1 : List α) (a : α) (l2 : List α) (n : Nat), l1.length = n →
      ∀ (h : n < (l1 ++ a :: l2).length), (l1 ++ a :: l2)[n] = a := by
  intro l1
  induction l1 with
  | nil =>
    intro a l2 n hn h
    subst hn
    rfl
  | cons b t ih =>
    intro a l2 n hn h
    subst hn
    simpa using ih a l2 t.length rfl (by simp)

/-- `set` at the junction of an append. -/
theorem set_append_cons {α : Type} :
    ∀ (l1 : List α) (a b : α) (l2 : List α),
      (l1 ++ a :: l2).set l1.length b = l1 ++ b :: l2 := by
  intro l1
  induction l1 with
  | nil => intro a b l2; rfl
  | cons c t ih => intro a b l2; simp [ih a b l2]

/-- Line-typed paste on a pane whose register trims to a single line (no
newline left after `trim_end`, which is the shape `yy`/`dd` of any line but
the last produce: `"text\n"` trims to `"text"`): the trimmed register's
text appears as a new line directly below the cursor's line with the
cursor at its start. -/
theorem paste_linewise (ed : Editor) (hline : ed.yank_type = some TextObject.Line)
    (hsl : ed.single_line = false) (hnl : '\n' ∉ trimEnd ed.ta.yank)
    (hrow : ed.ta.row < ed.ta.lines.length) :
    (ed.execute_action .Paste).ta.lines =
      ed.ta.lines.take (ed.ta.row + 1) ++
        trimEnd ed.ta.yank :: ed.ta.lines.drop (ed.ta.row + 1) ∧
    (ed.execute_action .Paste).ta.row = ed.ta.row + 1 ∧
    (ed.execute_action .Paste).ta.col = 0 := by
  have hly : isLineYank ed.yank_type = true := by rw [hline]; rfl
  have hset : ed.ta.lines.set ed.ta.row (ed.ta.lines.getD ed.ta.row []) = ed.ta.lines :=
    set_getD_self ed.ta.lines ed.ta.row [] hrow
  have hlen : (ed.ta.lines.take (ed.ta.row + 1)).length = ed.ta.row + 1 := by
    simp [List.length_take]; omega
  simp only [Editor.execute_action, Editor.execute_step, hly, hsl,
    Bool.false_eq_true, if_true, if_false, TextArea.set_yank_text,
    TextArea.move_cursor, TextArea.insert_newline, TextArea.paste,
    TextArea.currentLine, TextArea.lineLen, insertAt, List.take_length,
    List.drop_length, hset]
  rw [splitNewlines_no_newline (trimEnd ed.ta.yank) hnl]
  have hgetD := getD_append_cons (ed.ta.lines.take (ed.ta.row + 1)) ([] : Line)
    (ed.ta.lines.drop (ed.ta.row + 1)) []
  rw [hlen] at hgetD
  have hsetp := set_append_cons (ed.ta.lines.take (ed.ta.row + 1)) ([] : Line)
    (trimEnd ed.ta.yank) (ed.ta.lines.drop (ed.ta.row + 1))
  rw [hlen] at hsetp
  simp only [List.getD] at hgetD
  have hmin : (ed.ta.row + 1) ⊓ ed.ta.lines.length = ed.ta.row + 1 :=
    min_eq_left (by omega)
  simp [hgetD, hsetp, hmin, List.getD]
  exact getElem_append_cons _ _ _ _ hlen _

/-- Non-line paste: insert immediately after the cursor, cursor advanced
past the pasted text. -/
theorem paste_charwise (ed : Editor) (hly : isLineYank ed.yank_type = false)
    (hnl : '\n' ∉ ed.ta.yank) (hc : ed.ta.col < ed.ta.lineLen ed.ta.row) :
    (ed.execute_action .Paste).ta.lines =
      ed.ta.lines.set ed.ta.row
        (ed.ta.currentLine.take (ed.ta.col + 1) ++ ed.ta.yank ++
          ed.ta.currentLine.drop (ed.ta.col + 1)) ∧
    (ed.execute_action .Paste).ta.row = ed.ta.row ∧
    (ed.execute_action .Paste).ta.col = ed.ta.col + 1 + ed.ta.yank.length := by
  simp only [Editor.execute_action, Editor.execute_step, hly, Bool.false_eq_true,
    if_false, TextArea.move_cursor, if_pos hc, TextArea.paste]
  rw [splitNewlines_no_newline ed.ta.yank hnl]
  simp [TextArea.currentLine]

/-- Claim C7 (amended): when a pane's last yank is `Line`-typed, `Paste`
trims trailing whitespace (including the trailing newline) from the
register, moves to line end, inserts a new line, pastes and moves to line
start; whenever the trimmed register is a single line — the shape `yy`/`dd`
of any line but the last store, `"text\n"` — the yanked text appears as a
new line directly below the cursor's line with the cursor at its start and
the original line unchanged (`yy` then `p` there copies, it does not move).
Registers with a leading newline (`yy`/`dd` on the last line of a
multi-line buffer store `"\ntext"`) fall outside this guarantee: paste
then inserts a blank line plus the text with the cursor two rows below
(see the counterexample).  When the last yank is not `Line`-typed, `Paste`
inserts immediately after the cursor with the cursor advanced past the
pasted text. -/
theorem c7_paste_placement :
    (∀ ed : Editor, ed.yank_type = some TextObject.Line → ed.single_line = false →
      '\n' ∉ trimEnd ed.ta.yank →
      ed.ta.row < ed.ta.lines.length →
      (ed.execute_action .Paste).ta.lines =
        ed.ta.lines.take (ed.ta.row + 1) ++
          trimEnd ed.ta.yank :: ed.ta.lines.drop (ed.ta.row + 1) ∧
      (ed.execute_action .Paste).ta.row = ed.ta.row + 1 ∧
      (ed.execute_action .Paste).ta.col = 0) ∧
    (∀ ed : Editor, isLineYank ed.yank_type = false → '\n' ∉ ed.ta.yank →
      ed.ta.col < ed.ta.lineLen ed.ta.row →
      (ed.execute_action .Paste).ta.lines =
        ed.ta.lines.set ed.ta.row
          (ed.ta.currentLine.take (ed.ta.col + 1) ++ ed.ta.yank ++
            ed.ta.currentLine.drop (ed.ta.col + 1)) ∧
      (ed.execute_action .Paste).ta.row = ed.ta.row ∧
      (ed.execute_action .Paste).ta.col = ed.ta.col + 1 + ed.ta.yank.length) ∧
    (((mkPane [['a', 'b'], ['c', 'd']] 0 0).execute_action
        (.Yank .Line)).ta.lines = [['a', 'b'], ['c', 'd']] ∧
      ((mkPane [['a', 'b'], ['c', 'd']] 0 0).execute_action
        (.Yank .Line)).ta.row = 0 ∧
      ((mkPane [['a', 'b'], ['c', 'd']] 0 0).execute_action
        (.Yank .Line)).ta.col = 0 ∧
      ((mkPane [['a', 'b'], ['c', 'd']] 0 0).execute_action
        (.Yank .Line)).yank_type = some .Line ∧
      (((mkPane [['a', 'b'], ['c', 'd']] 0 0).execute_action
        (.Yank .Line)).execute_action .Paste).ta.lines =
        [['a', 'b'], ['a', 'b'], ['c', 'd']] ∧
      (((mkPane [['a', 'b'], ['c', 'd']] 0 0).execute_action
        (.Yank .Line)).execute_action .Paste).ta.row = 1 ∧
      (((mkPane [['a', 'b'], ['c', 'd']] 0 0).execute_action
        (.Yank .Line)).execute_action .Paste).ta.col = 0) :=
  ⟨paste_linewise, paste_charwise, by decide⟩

/-- Claim C7 witness: the two paste placements at concrete panes — a
`Line`-tagged register `"zz\n"` (as `yy` of a non-last line stores it,
trimming to `"zz"`) pasted from `["ab", "c"]` at `(0, 1)`, and a
`Selection`-tagged register `"w"` pasted from `["ab"]` at `(0, 0)`. -/
theorem c7_paste_placement_witness :
    ((({ ta := ⟨[['a', 'b'], ['c']], 0, 1, none, ['z', 'z', '\n'], 1⟩, mode := .Normal,
          pending_action := none, yank_type := some TextObject.Line,
          single_line := false } : Editor).execute_action .Paste).ta.lines =
        [['a', 'b'], ['z', 'z'], ['c']] ∧
      (({ ta := ⟨[['a', 'b'], ['c']], 0, 1, none, ['z', 'z', '\n'], 1⟩, mode := .Normal,
          pending_action := none, yank_type := some TextObject.Line,
          single_line := false } : Editor).execute_action .Paste).ta.row = 1 ∧
      (({ ta := ⟨[['a', 'b'], ['c']], 0, 1, none, ['z', 'z', '\n'], 1⟩, mode := .Normal,
          pending_action := none, yank_type := some TextObject.Line,
          single_line := false } : Editor).execute_action .Paste).ta.col = 0) ∧
    ((({ ta := ⟨[['a', 'b']], 0, 0, none, ['w'], 0⟩, mode := .Normal,
          pending_action := none, yank_type := some TextObject.Selection,
          single_line := false } : Editor).execute_action .Paste).ta.lines =
        [['a', 'w', 'b']] ∧
      (({ ta := ⟨[['a', 'b']], 0, 0, none, ['w'], 0⟩, mode := .Normal,
          pending_action := none, yank_type := some TextObject.Selection,
          single_line := false } : Editor).execute_action .Paste).ta.row = 0 ∧
      (({ ta := ⟨[['a', 'b']], 0, 0, none, ['w'], 0⟩, mode := .Normal,
          pending_action := none, yank_type := some TextObject.Selection,
          single_line := false } : Editor).execute_action .Paste).ta.col = 2) := by
  constructor
  · have h := c7_paste_placement.1
      { ta := ⟨[['a', 'b'], ['c']], 0, 1, none, ['z', 'z', '\n'], 1⟩, mode := .Normal,
        pending_action := none, yank_type := some TextObject.Line, single_line := false }
      rfl rfl (by decide) (by decide)
    simpa using h
  · have h := c7_paste_placement.2.1
      { ta := ⟨[['a', 'b']], 0, 0, none, ['w'], 0⟩, mode := .Normal,
        pending_action := none, yank_type := some TextObject.Selection,
        single_line := false }
      rfl (by decide) (by decide)
    simpa using h

/-- Claim C7 counterexample: `yy` on the last line of the multi-line
buffer `["a", "b"]` stores the `Line`-tagged register `"\nb"` — trimming
removes only trailing whitespace, so the leading newline survives — and
the subsequent `p` inserts a blank line and `"b"` (buffer
`["a", "b", "", "b"]`) with the cursor at `(3, 0)`: the yanked text does
not appear as one new line directly below the cursor's original line
(which would be buffer `["a", "b", "b"]` with the cursor at `(2, 0)`),
refuting the claim as stated for every `Line`-typed register. -/
theorem c7_paste_counterexample :
    ((mkPane [['a'], ['b']] 1 0).execute_action (.Yank .Line)).yank_type =
      some TextObject.Line ∧
    ((mkPane [['a'], ['b']] 1 0).execute_action (.Yank .Line)).ta.yank = ['\n', 'b'] ∧
    ((mkPane [['a'], ['b']] 1 0).execute_action (.Yank .Line)).ta.lines =
      [['a'], ['b']] ∧
    ((mkPane [['a'], ['b']] 1 0).execute_action (.Yank .Line)).ta.row = 1 ∧
    ((mkPane [['a'], ['b']] 1 0).execute_action (.Yank .Line)).ta.col = 0 ∧
    (((mkPane [['a'], ['b']] 1 0).execute_action (.Yank .Line)).execute_action
        .Paste).ta.lines = [['a'], ['b'], [], ['b']] ∧
    (((mkPane [['a'], ['b']] 1 0).execute_action (.Yank .Line)).execute_action
        .Paste).ta.row = 3 ∧
    ¬ ((((mkPane [['a'], ['b']] 1 0).execute_action (.Yank .Line)).execute_action
          .Paste).ta.lines = [['a'], ['b'], ['b']] ∧
       (((mkPane [['a'], ['b']] 1 0).execute_action (.Yank .Line)).execute_action
          .Paste).ta.row = 2) := by
  decide

/-- An operator stamping on `Delete`: every `Delete(obj)` tags the pane's
yank type with `obj`. -/
theorem delete_stamps_yank_type (ed : Editor) (obj : TextObject) :
    (ed.execute_action (.Delete obj)).yank_type = some obj := by
  cases obj <;> simp [Editor.execute_action, Editor.execute_step]

/-- Paste placement is a function of the yank-type tag alone: the mode
active at paste time does not influence the buffer effect of `Paste`. -/
theorem paste_ignores_mode (ed : Editor) (m : EditorMode) :
    ({ ed with mode := m }.execute_action .Paste).ta =
      (ed.execute_action .Paste).ta := by
  rcases Bool.eq_false_or_eq_true (isLineYank ed.yank_type) with hl | hl <;>
    rcases Bool.eq_false_or_eq_true ed.single_line with hb | hb <;>
    simp [Editor.execute_action, Editor.execute_step, hl, hb]

/-- Claim C8 (amended): operators acting on the active `Selection` stamp
the pane's yank-type tag, and the `Yank` operator retroactively tags a
line-anchored selection (Visual Line mode) as `Line`-typed even though it
originated from Visual mode, so a subsequent `Paste` places it as a whole
line; the tag stamped at yank time, not the mode active at paste time,
governs paste placement.  The retroactive `Line` tag is applied only by the
`Yank` arm: `Delete(Selection)` stamps the tag `Selection` even in Visual
Line mode (see the counterexample). -/
theorem c8_yank_tag :
    (∀ ed : Editor, ed.mode = .Visual .Line →
      (ed.execute_action (.Yank .Selection)).yank_type = some .Line) ∧
    (∀ ed : Editor, ed.mode = .Visual .Char →
      (ed.execute_action (.Yank .Selection)).yank_type = some .Selection) ∧
    (∀ (ed : Editor) (obj : TextObject),
      (ed.execute_action (.Delete obj)).yank_type = some obj) ∧
    (∀ (ed : Editor) (m : EditorMode),
      ({ ed with mode := m }.execute_action .Paste).ta =
        (ed.execute_action .Paste).ta) := by
  refine ⟨fun ed h => ?_, fun ed h => ?_, delete_stamps_yank_type, paste_ignores_mode⟩
  · simp [Editor.execute_action, Editor.execute_step, h]
  · simp [Editor.execute_action, Editor.execute_step, h]

/-- Claim C8 witness: a Visual Line yank of the selection on a concrete
pane is tagged `Line`; a Visual Char yank is tagged `Selection`; a delete
of the selection is stamped; and paste ignores the pane's mode. -/
theorem c8_yank_tag_witness :
    (({ mkPane [['a'], ['b']] 0 0 with mode := .Visual .Line }.execute_action
        (.Yank .Selection)).yank_type = some .Line) ∧
    (({ mkPane [['a'], ['b']] 0 0 with mode := .Visual .Char }.execute_action
        (.Yank .Selection)).yank_type = some .Selection) ∧
    ((mkPane [['a'], ['b']] 0 0).execute_action
        (.Delete .Selection)).yank_type = some TextObject.Selection ∧
    ({ mkPane [['a']] 0 0 with mode := .Insert }.execute_action .Paste).ta =
      ((mkPane [['a']] 0 0).execute_action .Paste).ta :=
  ⟨c8_yank_tag.1 { mkPane [['a'], ['b']] 0 0 with mode := .Visual .Line } rfl,
   c8_yank_tag.2.1 { mkPane [['a'], ['b']] 0 0 with mode := .Visual .Char } rfl,
   c8_yank_tag.2.2.1 (mkPane [['a'], ['b']] 0 0) .Selection,
   c8_yank_tag.2.2.2 (mkPane [['a']] 0 0) .Insert⟩

/-- Claim C8 counterexample: in Visual Line mode, `Delete(Selection)` (the
resolution of visual-mode `d`) stamps the yank-type tag `Selection`, not
`Line` — the retroactive `Line` tagging claimed for every operator on a
line-anchored selection does not happen on delete, so a subsequent `Paste`
of the deleted text takes the character-wise branch. -/
theorem c8_delete_selection_counterexample :
    (({ mkPane [['a'], ['b']] 0 0 with
        mode := .Visual .Line,
        ta := { (mkPane [['a'], ['b']] 0 0).ta with
                  sel_start := some (0, 0) } }.execute_action
        (.Delete .Selection)).yank_type = some TextObject.Selection) ∧
    isLineYank (({ mkPane [['a'], ['b']] 0 0 with
        mode := .Visual .Line,
        ta := { (mkPane [['a'], ['b']] 0 0).ta with
                  sel_start := some (0, 0) } }.execute_action
        (.Delete .Selection)).yank_type) = false := by
  decide

/-- Every action except a top-level `Pending` — and except the single-line
guard early returns — clears the pending command. -/
theorem non_pending_clears (ed : Editor) (a : EditorAction)
    (hnp : is_pending_action a = false) (hg : ed.hits_single_line_guard a = false) :
    (ed.execute_action a).pending_action = none := by
  cases a with
  | SetMode m => simp [Editor.execute_action, Editor.execute_step]
  | MoveCursor m => simp [Editor.execute_action, Editor.execute_step]
  | Insert obj =>
    cases obj <;>
      simp_all [Editor.execute_action, Editor.execute_step,
        Editor.hits_single_line_guard]
  | ApplyInput input =>
    simp only [Editor.hits_single_line_guard] at hg
    simp only [Editor.execute_action, Editor.execute_step]
    have hcond : ¬ (ed.single_line = true ∧ input.key = Key.Enter) := by
      rintro ⟨h1, h2⟩
      simp [h1, h2] at hg
    rw [if_neg hcond]
    simp
  | Delete obj => cases obj <;> simp [Editor.execute_action, Editor.execute_step]
  | Select obj => cases obj <;> simp [Editor.execute_action, Editor.execute_step]
  | Yank obj => cases obj <;> simp [Editor.execute_action, Editor.execute_step]
  | ReplaceChar c => simp [Editor.execute_action, Editor.execute_step]
  | Paste =>
    simp only [Editor.hits_single_line_guard] at hg
    rcases Bool.eq_false_or_eq_true ed.single_line with hb | hb <;>
      rcases Bool.eq_false_or_eq_true (isLineYank ed.yank_type) with hl | hl <;>
      simp_all [Editor.execute_action, Editor.execute_step]
  | Undo => simp [Editor.execute_action, Editor.execute_step]
  | Redo => simp [Editor.execute_action, Editor.execute_step]
  | Pending p => simp [is_pending_action] at hnp
  | MultiAction actions => simp [Editor.execute_action]

/-- Claim C9 (amended): executing an action leaves the pane's pending
command `None` unless the action is a top-level `Pending` (which arms it)
or the action hits one of the three single-line guard early returns
(`Insert(Line)`, an `Enter` key in `ApplyInput`, or a `Line`-typed `Paste`
on a single-line pane), which leave the whole pane — including any pending
command — untouched; a `Batch`/`MultiAction`, even one containing a
`Pending` member, always ends with the pending command cleared. -/
theorem c9_pending_cleared :
    (∀ (ed : Editor) (a : EditorAction),
      is_pending_action a = false → ed.hits_single_line_guard a = false →
      (ed.execute_action a).pending_action = none) ∧
    (∀ (ed : Editor) (p : EditorPendingAction),
      (ed.execute_action (.Pending p)).pending_action = some p) ∧
    (∀ (ed : Editor) (actions : List EditorAction),
      (ed.execute_action (.MultiAction actions)).pending_action = none) :=
  ⟨non_pending_clears, fun _ _ => rfl, fun _ _ => rfl⟩

/-- Claim C9 witness: on a concrete multi-line pane with an armed pending
command, `Delete(Char)` ends with the pending command cleared; `Pending`
re-arms it; and a `Batch` containing a `Pending` member ends cleared. -/
theorem c9_pending_cleared_witness :
    (is_pending_action (.Delete .Char) = false ∧
      ({ mkPane [['a']] 0 0 with
          pending_action := some (.Delete none) }).hits_single_line_guard
        (.Delete .Char) = false) ∧
    (({ mkPane [['a']] 0 0 with
        pending_action := some (.Delete none) }.execute_action
        (.Delete .Char)).pending_action = none) ∧
    ((mkPane [['a']] 0 0).execute_action
        (.Pending (.Yank none))).pending_action = some (.Yank none) ∧
    ((mkPane [['a']] 0 0).execute_action
        (.MultiAction [.Pending (.Yank none)])).pending_action = none :=
  ⟨⟨rfl, rfl⟩,
   c9_pending_cleared.1
     { mkPane [['a']] 0 0 with pending_action := some (.Delete none) }
     (.Delete .Char) rfl rfl,
   c9_pending_cleared.2.1 (mkPane [['a']] 0 0) (.Yank none),
   c9_pending_cleared.2.2 (mkPane [['a']] 0 0) [.Pending (.Yank none)]⟩

/-- Claim C9 counterexample: on a single-line pane with an armed pending
command, `Insert(Line)` hits the single-line guard's early `return`, which
skips the trailing pending-command clear — the pending command survives the
action. -/
theorem c9_single_line_counterexample :
    ({ mkPane [['a']] 0 0 with
        single_line := true,
        pending_action := some (.Delete none) }.execute_action
        (.Insert .Line)).pending_action = some (.Delete none) := by
  decide

end TickTui
